import Mathlib

/-!
# user-microservice: credential check, token lifecycle, authorization guard

A shallow embedding of the Go sources

* `internal/auth/auth.go` (`CheckPasswordHash`, `GenerateJWT`, `ValidateJWT`),
* `internal/service/user_service.go` (`Login`, `UpdateUserAddress`,
  `DeleteUserAddress`, `ValidateToken`),
* `api/http/middleware/auth_middleware.go` (`AuthMiddleware`, `GetUserClaims`),
* `api/http/handler/user_handler.go` (`Login`, the six guarded handlers and
  `checkPermissions`),
* `api/grpc/server.go` (`UserServer.ValidateToken`),
* `config/config.go` (`LoadConfig`, `getEnv`, `getEnvOrPanic`).

Conventions.

* Go `uint` values are `Nat`; `time.Time` is an `Int` count of nanoseconds since
  the Unix epoch and `time.Duration` an `Int` count of nanoseconds.
* A Go `error` is a `GoError`: the text of `err.Error()` together with the
  sentinel errors that `errors.Is` finds in its chain.
* A Go function returning `(T, error)` returns `Except GoError T`; a method that
  touches the database or the cache also returns the receiver's new state.
* Third-party libraries (bcrypt, golang-jwt v5, gorm, go-redis v8, gin) and the
  Go packages `strings` and `strconv` are not part of the repository.  Their cryptographic and wire-format primitives are fields
  of `Primitives`; their control flow is modelled in the definitions marked
  "library".
* `log.Printf` output is not modelled.
-/

namespace UserMicroservice

/-! ## Go errors -/

/-- Sentinel errors of the libraries that the sources test with `errors.Is`. -/
inductive Sentinel
  | ErrRecordNotFound
  | ErrTokenMalformed
  | ErrTokenUnverifiable
  | ErrTokenSignatureInvalid
  | ErrTokenInvalidClaims
  | ErrTokenExpired
  | ErrTokenNotValidYet
  deriving DecidableEq, Repr

/-- A Go `error` value: its message and the sentinels wrapped in it. -/
structure GoError where
  msg : String
  chain : List Sentinel
  deriving DecidableEq, Repr

namespace GoError

/-- Go `errors.New`. -/
def new (m : String) : GoError := ⟨m, []⟩

/-- Go `fmt.Errorf(pre ++ ": %w", e)`: the message is prefixed, the chain is kept. -/
def wrap (pre : String) (e : GoError) : GoError := ⟨pre ++ ": " ++ e.msg, e.chain⟩

/-- Go `errors.Is(e, s)` for a sentinel `s`. -/
def Is (e : GoError) (s : Sentinel) : Bool := decide (s ∈ e.chain)

end GoError

/-! ## Time -/

abbrev Time := Int
abbrev Duration := Int

/-- Nanoseconds in `time.Second`. -/
def Second : Duration := 1000000000

/-- Nanoseconds in `time.Minute`. -/
def Minute : Duration := 60 * Second

/-- Nanoseconds in `time.Millisecond`. -/
def Millisecond : Duration := 1000000

/-! ## Claims (`internal/auth/auth.go`) -/

/-- The `auth.Claims` struct: `UserID`, `Email` and the embedded
`jwt.RegisteredClaims`, whose numeric dates are optional. -/
structure Claims where
  UserID : Nat
  Email : String
  Issuer : String
  Subject : String
  Audience : List String
  ExpiresAt : Option Time
  NotBefore : Option Time
  IssuedAt : Option Time
  ID : String
  deriving DecidableEq, Repr

/-! ## `internal/model/user.go` -/

/-- The `model.User` row: the embedded `gorm.Model` (`ID`, `CreatedAt`,
`UpdatedAt`, `DeletedAt`) and the account columns.  The preloaded `Addresses`
slice is not part of the row. -/
structure User where
  ID : Nat
  CreatedAt : Time
  UpdatedAt : Time
  DeletedAt : Option Time
  Email : String
  PasswordHash : String
  FirstName : String
  LastName : String
  deriving DecidableEq, Repr

/-- The `model.Address` row: the embedded `gorm.Model` and the address columns.
The struct declares `CreatedAt` and `UpdatedAt` a second time; both map to the
same columns, kept once here. -/
structure Address where
  ID : Nat
  CreatedAt : Time
  UpdatedAt : Time
  DeletedAt : Option Time
  UserID : Nat
  Street : String
  City : String
  State : String
  PostalCode : String
  Country : String
  IsDefault : Bool
  deriving DecidableEq, Repr

/-! ## gin request context (library) -/

/-- A JSON value written by a handler. `H` is a `gin.H` whose values are strings;
the other constructors are the model values the handlers serialise. -/
inductive Payload
  | H (fields : List (String × String))
  | user (u : User)
  | address (a : Address)
  | addresses (l : List Address)
  deriving DecidableEq, Repr

/-- A value stored in the context's key/value map (Go `any`).  `claims` is a
non-nil `*auth.Claims`: the only writer of the map, `AuthMiddleware`, stores the
pointer that `ValidateJWT` returned with a nil error. -/
inductive CtxVal
  | claims (c : Claims)
  | other (rendered : String)
  deriving DecidableEq, Repr

/-- The parts of `gin.Context` the sources use. -/
structure Context where
  /-- path parameters, `c.Param` -/
  Params : List (String × String)
  /-- request headers, `c.GetHeader` -/
  Headers : List (String × String)
  /-- raw request body, read by `c.ShouldBindJSON` -/
  Body : String
  /-- `c.Set` / `c.Get` -/
  Keys : List (String × CtxVal)
  /-- response status -/
  Status : Nat
  /-- response bodies written so far -/
  Written : List Payload
  /-- set by `c.Abort` -/
  Aborted : Bool
  deriving DecidableEq, Repr

namespace Context

/-- `c.Param(key)`: the value of the path parameter, or `""`. -/
def Param (c : Context) (key : String) : String := (c.Params.lookup key).getD ""

/-- `c.GetHeader(key)`: the value of the request header, or `""`. -/
def GetHeader (c : Context) (key : String) : String := (c.Headers.lookup key).getD ""

/-- `c.Get(key)`. -/
def Get (c : Context) (key : String) : Option CtxVal := c.Keys.lookup key

/-- `c.Set(key, value)`. -/
def Set (c : Context) (key : String) (v : CtxVal) : Context :=
  { c with Keys := (key, v) :: c.Keys.filter (fun kv => kv.1 != key) }

/-- `c.Status(code)`: once a body has been written the status stays. -/
def setStatus (c : Context) (code : Nat) : Context :=
  if c.Written.isEmpty then { c with Status := code } else c

/-- `c.JSON(code, obj)`. -/
def JSON (c : Context) (code : Nat) (obj : Payload) : Context :=
  { c.setStatus code with Written := c.Written ++ [obj] }

/-- `c.AbortWithStatusJSON(code, obj)`: `c.Abort()` then `c.JSON(code, obj)`. -/
def AbortWithStatusJSON (c : Context) (code : Nat) (obj : Payload) : Context :=
  JSON { c with Aborted := true } code obj

end Context

def StatusOK : Nat := 200
def StatusCreated : Nat := 201
def StatusNoContent : Nat := 204
def StatusBadRequest : Nat := 400
def StatusUnauthorized : Nat := 401
def StatusForbidden : Nat := 403
def StatusNotFound : Nat := 404
def StatusInternalServerError : Nat := 500

/-! ## `api/http/middleware/auth_middleware.go`: context key and `GetUserClaims` -/

def AuthorizationHeaderKey : String := "Authorization"
def BearerSchema : String := "Bearer"
def UserContextKey : String := "userClaims"

/-- `GetUserClaims`: the claims stored under `UserContextKey`, and whether the
key exists and holds a `*auth.Claims`. -/
def GetUserClaims (c : Context) : Option Claims × Bool :=
  match c.Get UserContextKey with
  | none => (none, false)
  | some (CtxVal.claims cl) => (some cl, true)
  | some (CtxVal.other _) => (none, false)

/-! ## `api/http/handler/user_handler.go`: `checkPermissions` -/

/-- The body of the 403 answer. -/
def forbiddenBody : Payload :=
  Payload.H [("error", "You do not have permission to access this resource")]

/-- `checkPermissions`: the context after the call and the returned boolean.
The first case is `exists` with claims to compare, the second `!exists`. -/
def checkPermissions (c : Context) (requestedUserID : Nat) : Context × Bool :=
  match GetUserClaims c with
  | (some claims, true) =>
    if claims.UserID ≠ requestedUserID then
      (c.AbortWithStatusJSON StatusForbidden forbiddenBody, false)
    else (c, true)
  | _ => (c.AbortWithStatusJSON StatusForbidden forbiddenBody, false)

/-! ## golang-jwt v5 (library): signing methods, tokens -/

/-- The signing methods golang-jwt registers. -/
inductive SigningMethod
  | HS256 | HS384 | HS512
  | RS256 | RS384 | RS512
  | PS256 | PS384 | PS512
  | ES256 | ES384 | ES512
  | EdDSA
  | none
  deriving DecidableEq, Repr

namespace SigningMethod

/-- The type assertion `method.(*jwt.SigningMethodHMAC)` succeeds. -/
def isHMAC : SigningMethod → Bool
  | HS256 | HS384 | HS512 => true
  | _ => false

/-- `method.Alg()`. -/
def Alg : SigningMethod → String
  | HS256 => "HS256" | HS384 => "HS384" | HS512 => "HS512"
  | RS256 => "RS256" | RS384 => "RS384" | RS512 => "RS512"
  | PS256 => "PS256" | PS384 => "PS384" | PS512 => "PS512"
  | ES256 => "ES256" | ES384 => "ES384" | ES512 => "ES512"
  | EdDSA => "EdDSA"
  | none => "none"

/-- Every registered method. -/
def all : List SigningMethod :=
  [HS256, HS384, HS512, RS256, RS384, RS512, PS256, PS384, PS512,
   ES256, ES384, ES512, EdDSA, none]

end SigningMethod

/-- `jwt.GetSigningMethod(alg)`: the registered method of that name, if any. -/
def GetSigningMethod (alg : String) : Option SigningMethod :=
  SigningMethod.all.find? (fun m => m.Alg == alg)

/-- The JOSE header of a token: `Header["alg"]` when it is a JSON string, and
`Header["typ"]`. -/
structure Header where
  alg : Option String
  typ : Option String
  deriving DecidableEq, Repr

/-- The `jwt.Token` struct. -/
structure Token where
  Raw : String
  Method : Option SigningMethod
  Header : Header
  Claims : Claims
  Signature : String
  Valid : Bool
  deriving DecidableEq, Repr

/-- What splitting a token string at its dots and decoding the three segments
(base64url, JSON) yields.  `malformed` is every failure of the header or claims
segment, or a wrong number of segments; `parts` carries the decoded header and
claims, the signing input (the first two segments joined by a dot) and the
decoded signature, `none` when the third segment is not base64url. -/
inductive Decoded
  | malformed (detail : String)
  | parts (header : Header) (claims : Claims) (signingInput : String)
      (signature : Option String)
  deriving DecidableEq, Repr

/-- Why `bcrypt.CompareHashAndPassword` failed. -/
inductive BcryptError
  /-- `bcrypt.ErrMismatchedHashAndPassword` -/
  | mismatch
  /-- the stored hash is not a bcrypt hash (too short, bad prefix, bad cost) -/
  | malformedHash (detail : String)
  deriving DecidableEq, Repr

/-- The cryptographic, wire-format and request-binding primitives of the libraries. -/
structure Primitives where
  /-- `bcrypt.CompareHashAndPassword(hash, password)`; `none` is a nil error -/
  compareHashAndPassword : String → String → Option BcryptError
  /-- the HMAC of a message under a key with the hash of an HMAC method -/
  hmacSum : SigningMethod → String → String → String
  /-- `Token.SigningString`: the encoded header and claims joined by a dot -/
  signingString : Header → Claims → Except GoError String
  /-- `Token.EncodeSegment`: base64url of a signature -/
  encodeSegment : String → String
  /-- segment splitting and decoding of a token string -/
  decodeToken : String → Decoded
  /-- `c.ShouldBindJSON` into the login request: email and password -/
  bindLogin : String → Except GoError (String × String)
  /-- `c.ShouldBindJSON` into the profile request: first and last name -/
  bindProfile : String → Except GoError (String × String)
  /-- `c.ShouldBindJSON` into a `model.Address` -/
  bindAddress : String → Except GoError Address

/-- `jwt.NewNumericDate(t)`: `t` truncated to `jwt.TimePrecision`, one second. -/
def NewNumericDate (t : Time) : Time := t / Second * Second

/-- `jwt.NewWithClaims(method, claims)`. -/
def NewWithClaims (method : SigningMethod) (claims : Claims) : Token :=
  { Raw := "", Method := some method,
    Header := { alg := some method.Alg, typ := some "JWT" },
    Claims := claims, Signature := "", Valid := false }

/-- `method.Sign(signingString, key)` with a `[]byte` key: the HMAC for an HMAC
method; the other methods reject a `[]byte` key. -/
def SigningMethod.Sign (P : Primitives) (m : SigningMethod) (signingString key : String) :
    Except GoError String :=
  if m.isHMAC then .ok (P.hmacSum m key signingString)
  else .error (GoError.new "key is of invalid type")

/-- `method.Verify(signingString, sig, key)` with a `[]byte` key; `none` is a nil
error. -/
def SigningMethod.Verify (P : Primitives) (m : SigningMethod)
    (signingString sig key : String) : Option GoError :=
  if m.isHMAC then
    if sig = P.hmacSum m key signingString then Option.none
    else some (GoError.new "signature is invalid")
  else some (GoError.new "key is of invalid type")

/-- `token.SignedString(key)`. -/
def Token.SignedString (P : Primitives) (t : Token) (key : String) : Except GoError String :=
  match P.signingString t.Header t.Claims with
  | .error e => .error e
  | .ok sstr =>
    match t.Method with
    | Option.none => .error (GoError.new "signing method is nil")
    | some m =>
      match m.Sign P sstr key with
      | .error e => .error e
      | .ok sig => .ok (sstr ++ "." ++ P.encodeSegment sig)

/-- The text of a sentinel error. -/
def Sentinel.text : Sentinel → String
  | .ErrRecordNotFound => "record not found"
  | .ErrTokenMalformed => "token is malformed"
  | .ErrTokenUnverifiable => "token is unverifiable"
  | .ErrTokenSignatureInvalid => "token signature is invalid"
  | .ErrTokenInvalidClaims => "token has invalid claims"
  | .ErrTokenExpired => "token is expired"
  | .ErrTokenNotValidYet => "token is not valid yet"

/-- A sentinel as an error value. -/
def Sentinel.err (s : Sentinel) : GoError := ⟨s.text, [s]⟩

/-- The library's `newError(message, sentinel, more...)`. -/
def newError (message : String) (s : Sentinel) (more : List GoError) : GoError :=
  { msg := more.foldl (fun acc e => acc ++ ": " ++ e.msg)
      (if message = "" then s.text else s.text ++ ": " ++ message),
    chain := s :: (more.map (fun e => e.chain)).flatten }

/-- The library's `joinErrors`: the messages one per line, the chains together. -/
def joinErrors (errs : List GoError) : GoError :=
  { msg := "\n".intercalate (errs.map (fun e => e.msg)),
    chain := (errs.map (fun e => e.chain)).flatten }

/-- `Validator.Validate` with the default options (no leeway, no required claim,
no issued-at, audience, issuer or subject check): the expiry check
`now.Before(exp)` and the not-before check `!now.Before(nbf)`, each skipped when
the claim is absent; every violation is reported. -/
def Validate (now : Time) (claims : Claims) : Option GoError :=
  let errs : List GoError :=
    (match claims.ExpiresAt with
      | some exp => if now < exp then [] else [Sentinel.ErrTokenExpired.err]
      | Option.none => []) ++
    (match claims.NotBefore with
      | some nbf => if ¬ now < nbf then [] else [Sentinel.ErrTokenNotValidYet.err]
      | Option.none => [])
  if errs.isEmpty then Option.none else some (joinErrors errs)

/-- The zero `jwt.Token`.  It stands for the nil token the parser returns with a
segment-count error; callers return on that error before reading the token. -/
def Token.zero : Token :=
  { Raw := "", Method := Option.none, Header := ⟨Option.none, Option.none⟩,
    Claims := ⟨0, "", "", "", [], Option.none, Option.none, Option.none, ""⟩,
    Signature := "", Valid := false }

/-- `jwt.ParseWithClaims(tokenString, &Claims{}, keyFunc)` at time `now`: decode
the segments, look the header's algorithm up, decode the signature, ask the key
function for the key, verify the signature, validate the claims.  The token is
marked valid only when every step passed. -/
def ParseWithClaims (P : Primitives) (now : Time) (tokenString : String)
    (keyFunc : Token → Except GoError String) : Token × Option GoError :=
  match P.decodeToken tokenString with
  | .malformed detail => (Token.zero, some (newError detail .ErrTokenMalformed []))
  | .parts header claims text signature =>
    let token : Token :=
      { Raw := tokenString, Method := Option.none, Header := header, Claims := claims,
        Signature := "", Valid := false }
    match header.alg with
    | Option.none =>
      (token, some (newError "signing method (alg) is unspecified" .ErrTokenUnverifiable []))
    | some alg =>
      match GetSigningMethod alg with
      | Option.none =>
        (token, some (newError "signing method (alg) is unavailable" .ErrTokenUnverifiable []))
      | some method =>
        let token := { token with Method := some method }
        match signature with
        | Option.none =>
          (token, some (newError "could not base64 decode signature" .ErrTokenMalformed []))
        | some sig =>
          let token := { token with Signature := sig }
          match keyFunc token with
          | .error e =>
            (token, some (newError "error while executing keyfunc" .ErrTokenUnverifiable [e]))
          | .ok key =>
            match method.Verify P text sig key with
            | some e => (token, some (newError "" .ErrTokenSignatureInvalid [e]))
            | Option.none =>
              match Validate now claims with
              | some e => (token, some (newError "" .ErrTokenInvalidClaims [e]))
              | Option.none => ({ token with Valid := true }, Option.none)

/-! ## `internal/auth/auth.go` -/

/-- `CheckPasswordHash`: the comparison returned a nil error. -/
def CheckPasswordHash (P : Primitives) (password hash : String) : Bool :=
  (P.compareHashAndPassword hash password).isNone

/-- The three readings of `time.Now()` that `GenerateJWT` takes, in the order
the struct literal evaluates them. -/
structure NowReads where
  forExpiresAt : Time
  forIssuedAt : Time
  forNotBefore : Time
  deriving DecidableEq, Repr

/-- The claims `GenerateJWT` builds. -/
def GenerateJWT.claims (clk : NowReads) (userID : Nat) (email : String)
    (expiry : Duration) : Claims :=
  { UserID := userID, Email := email,
    ExpiresAt := some (NewNumericDate (clk.forExpiresAt + expiry)),
    IssuedAt := some (NewNumericDate clk.forIssuedAt),
    NotBefore := some (NewNumericDate clk.forNotBefore),
    Issuer := "user-service",
    Subject := "", Audience := [], ID := "" }

/-- `GenerateJWT`. -/
def GenerateJWT (P : Primitives) (clk : NowReads) (userID : Nat) (email secret : String)
    (expiry : Duration) : Except GoError String :=
  let claims := GenerateJWT.claims clk userID email expiry
  let token := NewWithClaims .HS256 claims
  match token.SignedString P secret with
  | .error err => .error (GoError.wrap "failed to sign token" err)
  | .ok tokenString => .ok tokenString

/-- The key function `ValidateJWT` hands to the parser: the secret for a token
whose method is an HMAC method, an error otherwise. -/
def ValidateJWT.keyFunc (secret : String) (token : Token) : Except GoError String :=
  match token.Method with
  | some m =>
    if m.isHMAC then .ok secret
    else .error (GoError.new ("unexpected signing method: " ++ token.Header.alg.getD "<nil>"))
  | Option.none =>
    .error (GoError.new ("unexpected signing method: " ++ token.Header.alg.getD "<nil>"))

/-- `errors.Is(err, s)` for a possibly nil `err`. -/
def errIs (err : Option GoError) (s : Sentinel) : Bool :=
  match err with
  | some e => e.Is s
  | Option.none => false

/-- The error `ValidateJWT` returns from its `if err != nil` block, if any. -/
def ValidateJWT.early (err : Option GoError) : Option GoError :=
  match err with
  | Option.none => Option.none
  | some e =>
    if e.Is .ErrTokenExpired then some (GoError.new "token has expired")
    else if e.Is .ErrTokenMalformed then some (GoError.new "malformed token")
    else if !e.Is .ErrTokenNotValidYet then some (GoError.wrap "couldn't handle this token" e)
    else Option.none

/-- `ValidateJWT` at time `now`.  The type assertion `token.Claims.(*Claims)`
always succeeds, the parser having stored the `*Claims` it was given, so its
`ok` is not carried. -/
def ValidateJWT (P : Primitives) (now : Time) (tokenString secret : String) :
    Except GoError Claims :=
  let (token, err) := ParseWithClaims P now tokenString (ValidateJWT.keyFunc secret)
  match ValidateJWT.early err with
  | some e => .error e
  | Option.none =>
    if token.Valid then .ok token.Claims
    else if !token.Valid && errIs err .ErrTokenNotValidYet then
      .error (GoError.new "token is not yet valid")
    else .error (GoError.new "invalid token")

/-! ## gorm and go-redis (library) -/

/-- The database: the two tables and, when the server cannot be reached, the
driver's error text (every statement then fails with it). -/
structure DB where
  users : List User
  addresses : List Address
  fault : Option String
  deriving DecidableEq, Repr

/-- The row with the least primary key, the one `ORDER BY id LIMIT 1` selects. -/
def leastBy {α : Type} (key : α → Nat) : List α → Option α
  | [] => none
  | a :: rest =>
    match leastBy key rest with
    | none => some a
    | some b => if key a ≤ key b then some a else some b

namespace DB

/-- `db.Where(cond).First(&user)`: the first live (not soft-deleted) user
satisfying the condition, else `gorm.ErrRecordNotFound`.  Column comparisons are
exact equality. -/
def FirstUser (db : DB) (cond : User → Bool) : Except GoError User :=
  match db.fault with
  | some m => .error (GoError.new m)
  | none =>
    match leastBy (fun u => u.ID) (db.users.filter (fun u => u.DeletedAt.isNone && cond u)) with
    | none => .error Sentinel.ErrRecordNotFound.err
    | some u => .ok u

/-- `db.Where(cond).First(&addr)` on the addresses table. -/
def FirstAddress (db : DB) (cond : Address → Bool) : Except GoError Address :=
  match db.fault with
  | some m => .error (GoError.new m)
  | none =>
    match leastBy (fun a => a.ID)
        (db.addresses.filter (fun a => a.DeletedAt.isNone && cond a)) with
    | none => .error Sentinel.ErrRecordNotFound.err
    | some a => .ok a

/-- `db.Save(&addr)` for a row with a primary key: the live row of that key is
overwritten with every field of `addr` and `UpdatedAt` is set to `now`; the
saved value and the new database are returned. -/
def SaveAddress (db : DB) (now : Time) (addr : Address) : Except GoError (Address × DB) :=
  match db.fault with
  | some m => .error (GoError.new m)
  | none =>
    let saved := { addr with UpdatedAt := now }
    .ok (saved, { db with addresses := db.addresses.map (fun a =>
      if a.ID = addr.ID ∧ a.DeletedAt.isNone then saved else a) })

/-- `db.Delete(&model.Address{}, id)`: the live row of that key is soft-deleted. -/
def DeleteAddress (db : DB) (now : Time) (id : Nat) : Except GoError DB :=
  match db.fault with
  | some m => .error (GoError.new m)
  | none =>
    .ok { db with addresses := db.addresses.map (fun a =>
      if a.ID = id ∧ a.DeletedAt.isNone then { a with DeletedAt := some now } else a) }

end DB

/-- go-redis `KeepTTL`. -/
def KeepTTL : Duration := -1

/-- The cache: for each key its value and its time-to-live (`none`: the key does
not expire), and, when the server cannot be reached, the client's error text. -/
structure Redis where
  entries : List (String × String × Option Duration)
  fault : Option String
  deriving DecidableEq, Repr

namespace Redis

/-- The time-to-live `rdb.Set` gives a key for an `expiration` argument.  A
positive expiration is sent in whole seconds (`EX`) when it is a whole number of
seconds, else in whole milliseconds (`PX`, at least one); `KeepTTL` keeps the
time-to-live the key has; any other expiration sets none (go-redis: "Zero
expiration means the key has no expiration time"). -/
def lifetime (r : Redis) (key : String) (expiration : Duration) : Option Duration :=
  if 0 < expiration then
    if expiration < Second ∨ expiration % Second ≠ 0 then
      some ((if expiration < Millisecond then 1 else expiration / Millisecond) * Millisecond)
    else some (expiration / Second * Second)
  else if expiration = KeepTTL then (r.entries.lookup key).bind (fun e => e.2)
  else none

/-- `rdb.Set(ctx, key, value, ttl).Err()`: the error, if any, and the new cache. -/
def Set (r : Redis) (key value : String) (ttl : Duration) : Option GoError × Redis :=
  match r.fault with
  | some m => (some (GoError.new m), r)
  | none =>
    (none, { r with entries :=
      (key, value, r.lifetime key ttl) :: r.entries.filter (fun e => e.1 != key) })

/-- The entry stored under a key: its value and time-to-live. -/
def Get (r : Redis) (key : String) : Option (String × Option Duration) :=
  r.entries.lookup key

end Redis

/-! ## `config/config.go` -/

/-- The `config.Config` struct. -/
structure Config where
  HTTPPort : String
  GRPCPort : String
  DatabaseURL : String
  RedisAddr : String
  RedisPassword : String
  RedisDB : Int
  JWTSecret : String
  JWTExpiry : Duration
  deriving DecidableEq, Repr

/-! ## `internal/service/user_service.go` -/

/-- The `userServiceImpl` struct: database, cache and configuration. -/
structure userServiceImpl where
  db : DB
  rdb : Redis
  cfg : Config
  deriving DecidableEq, Repr

/-- `fmt.Sprintf("jwt:%d", id)`. -/
def jwtKey (id : Nat) : String := "jwt:" ++ toString id

namespace userServiceImpl

/-- `Login`: the returned `(string, error)` and the service afterwards. -/
def Login (P : Primitives) (clk : NowReads) (s : userServiceImpl) (email password : String) :
    Except GoError String × userServiceImpl :=
  match s.db.FirstUser (fun u => u.Email == email) with
  | .error err =>
    if err.Is .ErrRecordNotFound then (.error (GoError.new "invalid email or password"), s)
    else (.error (GoError.wrap "database error finding user" err), s)
  | .ok user =>
    if !CheckPasswordHash P password user.PasswordHash then
      (.error (GoError.new "invalid email or password"), s)
    else
      match GenerateJWT P clk user.ID user.Email s.cfg.JWTSecret s.cfg.JWTExpiry with
      | .error err => (.error (GoError.wrap "failed to generate JWT" err), s)
      | .ok tokenString =>
        -- a failed cache write is logged and otherwise ignored
        let (_, rdb) := s.rdb.Set (jwtKey user.ID) tokenString s.cfg.JWTExpiry
        (.ok tokenString, { s with rdb := rdb })

/-- `UpdateUserAddress` at database time `now`. -/
def UpdateUserAddress (now : Time) (s : userServiceImpl) (userID addrID : Nat)
    (updatedAddr : Address) : Except GoError Address × userServiceImpl :=
  match s.db.FirstAddress (fun a => a.ID == addrID && a.UserID == userID) with
  | .error err =>
    if err.Is .ErrRecordNotFound then
      (.error (GoError.new "address not found or does not belong to user"), s)
    else (.error (GoError.wrap "database error finding address" err), s)
  | .ok existingAddr =>
    let existingAddr := { existingAddr with
      Street := updatedAddr.Street, City := updatedAddr.City, State := updatedAddr.State,
      PostalCode := updatedAddr.PostalCode, Country := updatedAddr.Country,
      IsDefault := updatedAddr.IsDefault }
    match s.db.SaveAddress now existingAddr with
    | .error err => (.error (GoError.wrap "failed to update address" err), s)
    | .ok (saved, db) => (.ok saved, { s with db := db })

/-- `DeleteUserAddress` at database time `now`; `none` is a nil error. -/
def DeleteUserAddress (now : Time) (s : userServiceImpl) (userID addrID : Nat) :
    Option GoError × userServiceImpl :=
  match s.db.FirstAddress (fun a => a.ID == addrID && a.UserID == userID) with
  | .error err =>
    if err.Is .ErrRecordNotFound then
      (some (GoError.new "address not found or does not belong to user"), s)
    else (some (GoError.wrap "database error finding address before delete" err), s)
  | .ok _ =>
    match s.db.DeleteAddress now addrID with
    | .error err => (some (GoError.wrap "failed to delete address" err), s)
    | .ok db => (none, { s with db := db })

/-- `ValidateToken` at time `now`. -/
def ValidateToken (P : Primitives) (now : Time) (s : userServiceImpl) (tokenString : String) :
    Except GoError Claims :=
  match ValidateJWT P now tokenString s.cfg.JWTSecret with
  | .error err => .error (GoError.wrap "token validation failed" err)
  | .ok claims => .ok claims

end userServiceImpl

/-! ## `api/http/handler/user_handler.go` -/

/-- The `service.UserService` interface over a service state `σ`: each method
returns its Go results and the state afterwards. -/
structure UserService (σ : Type) where
  Register : String → String → σ → Except GoError User × σ
  Login : String → String → σ → Except GoError String × σ
  GetUserProfile : Nat → σ → Except GoError User × σ
  UpdateUserProfile : Nat → String → String → σ → Except GoError User × σ
  GetUserAddresses : Nat → σ → Except GoError (List Address) × σ
  AddUserAddress : Nat → Address → σ → Except GoError Address × σ
  UpdateUserAddress : Nat → Nat → Address → σ → Except GoError Address × σ
  DeleteUserAddress : Nat → Nat → σ → Option GoError × σ
  ValidateToken : String → σ → Except GoError Claims × σ

/-- The methods of `service.UserService`. -/
inductive Method
  | Register | Login | GetUserProfile | UpdateUserProfile | GetUserAddresses
  | AddUserAddress | UpdateUserAddress | DeleteUserAddress | ValidateToken
  deriving DecidableEq, Repr

/-- A service that records every method invocation in a log next to its state. -/
def UserService.logged {σ : Type} (h : UserService σ) : UserService (σ × List Method) where
  Register e p s := ((h.Register e p s.1).1, (h.Register e p s.1).2, s.2 ++ [.Register])
  Login e p s := ((h.Login e p s.1).1, (h.Login e p s.1).2, s.2 ++ [.Login])
  GetUserProfile u s :=
    ((h.GetUserProfile u s.1).1, (h.GetUserProfile u s.1).2, s.2 ++ [.GetUserProfile])
  UpdateUserProfile u f l s :=
    ((h.UpdateUserProfile u f l s.1).1, (h.UpdateUserProfile u f l s.1).2,
      s.2 ++ [.UpdateUserProfile])
  GetUserAddresses u s :=
    ((h.GetUserAddresses u s.1).1, (h.GetUserAddresses u s.1).2, s.2 ++ [.GetUserAddresses])
  AddUserAddress u a s :=
    ((h.AddUserAddress u a s.1).1, (h.AddUserAddress u a s.1).2, s.2 ++ [.AddUserAddress])
  UpdateUserAddress u x a s :=
    ((h.UpdateUserAddress u x a s.1).1, (h.UpdateUserAddress u x a s.1).2,
      s.2 ++ [.UpdateUserAddress])
  DeleteUserAddress u x s :=
    ((h.DeleteUserAddress u x s.1).1, (h.DeleteUserAddress u x s.1).2,
      s.2 ++ [.DeleteUserAddress])
  ValidateToken t s :=
    ((h.ValidateToken t s.1).1, (h.ValidateToken t s.1).2, s.2 ++ [.ValidateToken])

/-- `strconv.ParseUint(s, 10, 32)`: a non-empty string of decimal digits whose
value fits 32 bits; `none` is a syntax or range error. -/
def ParseUint32 (s : String) : Option Nat :=
  if s.data.isEmpty then none
  else if s.data.all (fun ch => decide ('0' ≤ ch ∧ ch ≤ '9')) then
    let n := s.data.foldl (fun acc ch => 10 * acc + (ch.toNat - '0'.toNat)) 0
    if n < 2 ^ 32 then some n else none
  else none

/-- `gin.H` with an `error` entry. -/
def errorBody (msg : String) : Payload := Payload.H [("error", msg)]

/-- `gin.H` with an `error` and a `details` entry. -/
def errorDetailsBody (msg details : String) : Payload :=
  Payload.H [("error", msg), ("details", details)]

/-- `getUserIDFromParam`: answers 400 when the `id` segment does not parse. -/
def getUserIDFromParam (c : Context) : Context × Option Nat :=
  match ParseUint32 (c.Param "id") with
  | none => (c.JSON StatusBadRequest (errorBody "Invalid user ID format"), none)
  | some userID => (c, some userID)

/-- `getAddressIDFromParam`: answers 400 when the `addrId` segment does not parse. -/
def getAddressIDFromParam (c : Context) : Context × Option Nat :=
  match ParseUint32 (c.Param "addrId") with
  | none => (c.JSON StatusBadRequest (errorBody "Invalid address ID format"), none)
  | some addrID => (c, some addrID)

namespace UserHandler

variable {σ : Type}

/-- `UserHandler.Login`. -/
def Login (P : Primitives) (h : UserService σ) (c : Context) (s : σ) : Context × σ :=
  match P.bindLogin c.Body with
  | .error err => (c.JSON StatusBadRequest (errorDetailsBody "Invalid input" err.msg), s)
  | .ok (email, password) =>
    match h.Login email password s with
    | (.error err, s) =>
      if err.msg = "invalid email or password" then
        (c.JSON StatusUnauthorized (errorBody err.msg), s)
      else (c.JSON StatusInternalServerError (errorDetailsBody "Failed to login" err.msg), s)
    | (.ok token, s) => (c.JSON StatusOK (Payload.H [("token", token)]), s)

/-- `UserHandler.GetProfile`. -/
def GetProfile (h : UserService σ) (c : Context) (s : σ) : Context × σ :=
  match getUserIDFromParam c with
  | (c, none) => (c, s)
  | (c, some userID) =>
    match checkPermissions c userID with
    | (c, false) => (c, s)
    | (c, true) =>
      match h.GetUserProfile userID s with
      | (.error err, s) =>
        if err.msg = "user not found" then (c.JSON StatusNotFound (errorBody err.msg), s)
        else (c.JSON StatusInternalServerError
          (errorDetailsBody "Failed to get user profile" err.msg), s)
      | (.ok user, s) => (c.JSON StatusOK (Payload.user user), s)

/-- `UserHandler.UpdateProfile`. -/
def UpdateProfile (P : Primitives) (h : UserService σ) (c : Context) (s : σ) : Context × σ :=
  match getUserIDFromParam c with
  | (c, none) => (c, s)
  | (c, some userID) =>
    match checkPermissions c userID with
    | (c, false) => (c, s)
    | (c, true) =>
      match P.bindProfile c.Body with
      | .error err => (c.JSON StatusBadRequest (errorDetailsBody "Invalid input" err.msg), s)
      | .ok (firstName, lastName) =>
        match h.UpdateUserProfile userID firstName lastName s with
        | (.error err, s) =>
          if err.msg = "user not found" then (c.JSON StatusNotFound (errorBody err.msg), s)
          else (c.JSON StatusInternalServerError
            (errorDetailsBody "Failed to update user profile" err.msg), s)
        | (.ok user, s) => (c.JSON StatusOK (Payload.user user), s)

/-- `UserHandler.ListAddresses`. -/
def ListAddresses (h : UserService σ) (c : Context) (s : σ) : Context × σ :=
  match getUserIDFromParam c with
  | (c, none) => (c, s)
  | (c, some userID) =>
    match checkPermissions c userID with
    | (c, false) => (c, s)
    | (c, true) =>
      match h.GetUserAddresses userID s with
      | (.error err, s) =>
        (c.JSON StatusInternalServerError
          (errorDetailsBody "Failed to list addresses" err.msg), s)
      | (.ok addresses, s) => (c.JSON StatusOK (Payload.addresses addresses), s)

/-- `UserHandler.AddAddress`. -/
def AddAddress (P : Primitives) (h : UserService σ) (c : Context) (s : σ) : Context × σ :=
  match getUserIDFromParam c with
  | (c, none) => (c, s)
  | (c, some userID) =>
    match checkPermissions c userID with
    | (c, false) => (c, s)
    | (c, true) =>
      match P.bindAddress c.Body with
      | .error err => (c.JSON StatusBadRequest (errorDetailsBody "Invalid input" err.msg), s)
      | .ok req =>
        match h.AddUserAddress userID req s with
        | (.error err, s) =>
          (c.JSON StatusInternalServerError
            (errorDetailsBody "Failed to add address" err.msg), s)
        | (.ok address, s) => (c.JSON StatusCreated (Payload.address address), s)

/-- `UserHandler.UpdateAddress`. -/
def UpdateAddress (P : Primitives) (h : UserService σ) (c : Context) (s : σ) : Context × σ :=
  match getUserIDFromParam c with
  | (c, none) => (c, s)
  | (c, some userID) =>
    match getAddressIDFromParam c with
    | (c, none) => (c, s)
    | (c, some addrID) =>
      match checkPermissions c userID with
      | (c, false) => (c, s)
      | (c, true) =>
        match P.bindAddress c.Body with
        | .error err => (c.JSON StatusBadRequest (errorDetailsBody "Invalid input" err.msg), s)
        | .ok req =>
          match h.UpdateUserAddress userID addrID req s with
          | (.error err, s) =>
            if err.msg = "address not found or does not belong to user" then
              (c.JSON StatusNotFound (errorBody err.msg), s)
            else (c.JSON StatusInternalServerError
              (errorDetailsBody "Failed to update address" err.msg), s)
          | (.ok address, s) => (c.JSON StatusOK (Payload.address address), s)

/-- `UserHandler.DeleteAddress`. -/
def DeleteAddress (h : UserService σ) (c : Context) (s : σ) : Context × σ :=
  match getUserIDFromParam c with
  | (c, none) => (c, s)
  | (c, some userID) =>
    match getAddressIDFromParam c with
    | (c, none) => (c, s)
    | (c, some addrID) =>
      match checkPermissions c userID with
      | (c, false) => (c, s)
      | (c, true) =>
        match h.DeleteUserAddress userID addrID s with
        | (some err, s) =>
          if err.msg = "address not found or does not belong to user" then
            (c.JSON StatusNotFound (errorBody err.msg), s)
          else (c.JSON StatusInternalServerError
            (errorDetailsBody "Failed to delete address" err.msg), s)
        | (none, s) => (c.setStatus StatusNoContent, s)

end UserHandler

/-! ## Go `strings` (library) -/

/-- `strings.ToLower`.  Only the ASCII letters are mapped; Go's Unicode mapping
agrees on them and sends no other rune to an ASCII letter of `bearer`, the only
text the sources compare a lowered string with. -/
def ToLower (s : String) : String := ⟨s.data.map Char.toLower⟩

/-- `strings.HasPrefix(s, pre)`. -/
def HasPrefix (s pre : String) : Bool := pre.data.isPrefixOf s.data

/-- `strings.TrimPrefix(s, pre)`. -/
def TrimPrefix (s pre : String) : String :=
  if HasPrefix s pre then ⟨s.data.drop pre.data.length⟩ else s

/-- The text before and after the first space, when there is one. -/
def cutAtSpace : List Char → Option (List Char × List Char)
  | [] => none
  | ch :: rest =>
    if ch = ' ' then some ([], rest)
    else
      match cutAtSpace rest with
      | none => none
      | some (before, after) => some (ch :: before, after)

/-- `strings.SplitN(s, " ", 2)`: the string cut at its first space, or the
string alone when it has none. -/
def SplitN2 (s : String) : List String :=
  match cutAtSpace s.data with
  | none => [s]
  | some (before, after) => [⟨before⟩, ⟨after⟩]

/-! ## `api/http/middleware/auth_middleware.go`: `AuthMiddleware` -/

/-- The token string `AuthMiddleware` extracts from a non-empty `Authorization`
header. -/
def AuthMiddleware.tokenString (authHeader : String) : String :=
  if HasPrefix (ToLower authHeader) (ToLower BearerSchema) then
    match SplitN2 authHeader with
    | [_, token] => token
    | _ => TrimPrefix authHeader BearerSchema
  else authHeader

/-- What `AuthMiddleware` does with the extracted token: validate it, answer 401
on failure, else store the claims and run the rest of the chain (`c.Next()`). -/
def AuthMiddleware.validate (P : Primitives) (now : Time) (cfg : Config)
    (next : Context → Context) (c : Context) (tokenString : String) : Context :=
  match ValidateJWT P now tokenString cfg.JWTSecret with
  | .error err =>
    c.AbortWithStatusJSON StatusUnauthorized
      (errorDetailsBody "Invalid or expired token" err.msg)
  | .ok claims => next (c.Set UserContextKey (CtxVal.claims claims))

/-- The handler `AuthMiddleware(cfg)` returns, run at time `now`; `next` is the
rest of the handler chain. -/
def AuthMiddleware (P : Primitives) (now : Time) (cfg : Config) (next : Context → Context)
    (c : Context) : Context :=
  let authHeader := c.GetHeader AuthorizationHeaderKey
  if authHeader = "" then
    c.AbortWithStatusJSON StatusUnauthorized (errorBody "Authorization header is required")
  else
    AuthMiddleware.validate P now cfg next c (AuthMiddleware.tokenString authHeader)

/-! ## `api/grpc/server.go` -/

/-- The gRPC status codes `server.go` uses. -/
inductive Codes
  | InvalidArgument
  | AlreadyExists
  | Internal
  deriving DecidableEq, Repr

/-- The error `status.Errorf(code, message)` builds. -/
structure Status where
  code : Codes
  message : String
  deriving DecidableEq, Repr

/-- Modelled from the spec: the generated message `pb.ValidateTokenRequest` of
the proto package, which is not among the sources; `server.go` reads its `Token`
field. -/
structure ValidateTokenRequest where
  Token : String
  deriving DecidableEq, Repr

/-- Modelled from the spec: the generated message `pb.ValidateTokenResponse` of
the proto package, which is not among the sources; `server.go` sets `Valid`,
`UserId` and `Email`, and a field it leaves out has Go's zero value. -/
structure ValidateTokenResponse where
  Valid : Bool
  UserId : Nat
  Email : String
  deriving DecidableEq, Repr

/-- `UserServer.ValidateToken`: the response or the RPC error, and the service
state afterwards. -/
def UserServer.ValidateToken {σ : Type} (h : UserService σ) (req : ValidateTokenRequest)
    (s : σ) : Except Status ValidateTokenResponse × σ :=
  if req.Token = "" then (.error ⟨Codes.InvalidArgument, "Token is required"⟩, s)
  else
    match h.ValidateToken req.Token s with
    | (.error _, s) => (.ok { Valid := false, UserId := 0, Email := "" }, s)
    | (.ok claims, s) =>
      (.ok { Valid := true, UserId := claims.UserID, Email := claims.Email }, s)

/-- The service interface whose `ValidateToken` is `userServiceImpl.ValidateToken`
at time `now`; the other methods are taken from `h`. -/
def userServiceImpl.withValidateToken (P : Primitives) (now : Time)
    (h : UserService userServiceImpl) : UserService userServiceImpl :=
  { h with ValidateToken := fun tokenString s =>
      (userServiceImpl.ValidateToken P now s tokenString, s) }

/-! ## `config/config.go`: `LoadConfig` -/

/-- The process environment, read by `os.LookupEnv`. -/
abbrev Env := List (String × String)

/-- `getEnv`. -/
def getEnv (env : Env) (key fallback : String) : String :=
  match env.lookup key with
  | some value => value
  | none => fallback

/-- `getEnvOrPanic`; `none` is `log.Fatalf`, which ends the process. -/
def getEnvOrPanic (env : Env) (key : String) : Option String := env.lookup key

/-- `strconv.Atoi`: an optional sign and a non-empty string of decimal digits
whose value fits 64 bits; `none` is a syntax or range error. -/
def Atoi (s : String) : Option Int :=
  let signed : Bool × List Char :=
    match s.data with
    | '-' :: digits => (true, digits)
    | '+' :: digits => (false, digits)
    | digits => (false, digits)
  if signed.2.isEmpty then none
  else if signed.2.all (fun ch => decide ('0' ≤ ch ∧ ch ≤ '9')) then
    let n : Nat := signed.2.foldl (fun acc ch => 10 * acc + (ch.toNat - '0'.toNat)) 0
    let v : Int := if signed.1 then -(n : Int) else (n : Int)
    if -(2 ^ 63) ≤ v ∧ v < 2 ^ 63 then some v else none
  else none

/-- `strconv.Itoa`. -/
def Itoa (n : Int) : String := toString n

/-- The value a 64-bit signed integer holds after an arithmetic result `n`. -/
def wrapInt64 (n : Int) : Int := (n + 2 ^ 63) % 2 ^ 64 - 2 ^ 63

/-- `LoadConfig`; `none` when a required variable is missing and the process
ends. -/
def LoadConfig (env : Env) : Option Config :=
  let cfg : Config :=
    { HTTPPort := "8080", GRPCPort := "50051", DatabaseURL := "", RedisAddr := "",
      RedisPassword := "", RedisDB := 0, JWTSecret := "", JWTExpiry := 15 * Minute }
  let cfg := { cfg with HTTPPort := getEnv env "HTTP_PORT" cfg.HTTPPort }
  let cfg := { cfg with GRPCPort := getEnv env "GRPC_PORT" cfg.GRPCPort }
  match getEnvOrPanic env "DATABASE_URL" with
  | none => none
  | some databaseURL =>
    let cfg := { cfg with DatabaseURL := databaseURL }
    match getEnvOrPanic env "REDIS_ADDR" with
    | none => none
    | some redisAddr =>
      let cfg := { cfg with RedisAddr := redisAddr }
      let cfg := { cfg with RedisPassword := getEnv env "REDIS_PASSWORD" cfg.RedisPassword }
      let redisDBStr := getEnv env "REDIS_DB" (Itoa cfg.RedisDB)
      let cfg :=
        match Atoi redisDBStr with
        | none => cfg
        | some redisDB => { cfg with RedisDB := redisDB }
      match getEnvOrPanic env "JWT_SECRET" with
      | none => none
      | some jwtSecret =>
        let cfg := { cfg with JWTSecret := jwtSecret }
        let jwtExpiryStr := getEnv env "JWT_EXPIRY_MINUTES" "15"
        match Atoi jwtExpiryStr with
        | none => some cfg
        | some jwtExpiryMinutes =>
          some { cfg with JWTExpiry := wrapInt64 (jwtExpiryMinutes * Minute) }

/-! ## Concrete values used to instantiate the theorems -/

/-- Claims of a user with the given id. -/
def sampleClaims (userID : Nat) : Claims :=
  { UserID := userID, Email := "u@x.com", Issuer := "user-service", Subject := "",
    Audience := [], ExpiresAt := some 2000000000, NotBefore := some 1000000000,
    IssuedAt := some 1000000000, ID := "" }

/-- A fresh request context with the given path parameters, carrying the claims
of the given user when there is one. -/
def sampleContext (params : List (String × String)) (user : Option Nat) : Context :=
  { Params := params, Headers := [], Body := "",
    Keys := match user with
      | some u => [(UserContextKey, CtxVal.claims (sampleClaims u))]
      | none => [],
    Status := StatusOK, Written := [], Aborted := false }

/-- Toy primitives: a hash is the password behind the tag `bcrypt:`, the HMAC is
the method name, the key and the message joined by bars, signatures are encoded
as they are, and the decoder knows the token strings of `table`. -/
def samplePrimitives (sstr : String) (table : List (String × Decoded)) : Primitives where
  compareHashAndPassword hash password :=
    if hash = "bcrypt:" ++ password then none
    else if "bcrypt:".data.isPrefixOf hash.data then some BcryptError.mismatch
    else some (BcryptError.malformedHash "hashedSecret too short to be a bcrypted password")
  hmacSum m key msg := m.Alg ++ "|" ++ key ++ "|" ++ msg
  signingString _ _ := .ok sstr
  encodeSegment sig := sig
  decodeToken t :=
    (table.lookup t).getD (Decoded.malformed "token contains an invalid number of segments")
  bindLogin _ := .error (GoError.new "EOF")
  bindProfile _ := .error (GoError.new "EOF")
  bindAddress _ := .error (GoError.new "EOF")

/-- A service over the trivial state whose every method fails. -/
def sampleService : UserService Unit where
  Register _ _ s := (.error (GoError.new "unavailable"), s)
  Login _ _ s := (.error (GoError.new "unavailable"), s)
  GetUserProfile _ s := (.error (GoError.new "unavailable"), s)
  UpdateUserProfile _ _ _ s := (.error (GoError.new "unavailable"), s)
  GetUserAddresses _ s := (.error (GoError.new "unavailable"), s)
  AddUserAddress _ _ s := (.error (GoError.new "unavailable"), s)
  UpdateUserAddress _ _ _ s := (.error (GoError.new "unavailable"), s)
  DeleteUserAddress _ _ s := (some (GoError.new "unavailable"), s)
  ValidateToken _ s := (.error (GoError.new "unavailable"), s)

/-- An account row. -/
def sampleUser (id : Nat) (email hash : String) : User :=
  { ID := id, CreatedAt := 0, UpdatedAt := 0, DeletedAt := none, Email := email,
    PasswordHash := hash, FirstName := "", LastName := "" }

/-- An address row owned by `owner`. -/
def sampleAddress (id owner : Nat) : Address :=
  { ID := id, CreatedAt := 0, UpdatedAt := 0, DeletedAt := none, UserID := owner,
    Street := "1 Main St", City := "Springfield", State := "", PostalCode := "12345",
    Country := "US", IsDefault := false }

/-- A configuration with secret `k` and the default expiry of fifteen minutes. -/
def sampleConfig : Config :=
  { HTTPPort := "8080", GRPCPort := "50051", DatabaseURL := "", RedisAddr := "",
    RedisPassword := "", RedisDB := 0, JWTSecret := "k", JWTExpiry := 15 * Minute }

/-- A service with one account (id 7, password `secret1`), address 5 of user 7
and address 9 of user 8, and the given cache. -/
def sampleImpl (rdb : Redis) : userServiceImpl :=
  { db := { users := [sampleUser 7 "u@x.com" "bcrypt:secret1"],
            addresses := [sampleAddress 5 7, sampleAddress 9 8], fault := none },
    rdb := rdb, cfg := sampleConfig }

/-- `time.Now()` read three times within the second that starts at `sec` s. -/
def readsAt (sec : Int) : NowReads :=
  { forExpiresAt := sec * Second + 1, forIssuedAt := sec * Second + 2,
    forNotBefore := sec * Second + 3 }

/-- `time.Now()` read three times within the second that starts at 1000 s. -/
def sampleReads : NowReads := readsAt 1000

/-- The service interface whose `Login` is `userServiceImpl.Login`; the other
methods are taken from `h`. -/
def userServiceImpl.withLogin (P : Primitives) (clk : NowReads)
    (h : UserService userServiceImpl) : UserService userServiceImpl :=
  { h with Login := fun email password s => userServiceImpl.Login P clk s email password }

/-- The token string decodes into a header naming the HMAC method `m`, the
claims `cl`, and a signature that is the HMAC of the signing input under
`secret`: apart from its time bounds nothing is wrong with the token. -/
def SignedBy (P : Primitives) (secret tokenString : String) (m : SigningMethod)
    (cl : Claims) : Prop :=
  m.isHMAC = true ∧ ∃ typ text,
    P.decodeToken tokenString
      = Decoded.parts ⟨some m.Alg, typ⟩ cl text (some (P.hmacSum m secret text))

/-- The header `NewWithClaims` gives an HS256 token. -/
def hs256Header : Header := ⟨some "HS256", some "JWT"⟩

/-- Token strings the toy decoder knows, over the claims that `GenerateJWT`
builds for user 7 at `sampleReads` with fifteen minutes of expiry (valid from
1000 s to 1900 s): the token `Login` issues, the same token with a forged
signature, the same claims signed with HS384, a token naming RS256, and tokens
issued at 0 s (valid until 900 s) and at 5000 s (valid from 5000 s), a token
whose header has no `alg`, and the issued token with a signature segment that is
not base64url. -/
def sampleTable : List (String × Decoded) :=
  [("h.c.HS256|k|h.c",
      Decoded.parts hs256Header (GenerateJWT.claims sampleReads 7 "u@x.com" (15 * Minute))
        "h.c" (some "HS256|k|h.c")),
   ("h.c.forged",
      Decoded.parts hs256Header (GenerateJWT.claims sampleReads 7 "u@x.com" (15 * Minute))
        "h.c" (some "forged")),
   ("h384.c.HS384|k|h384.c",
      Decoded.parts ⟨some "HS384", some "JWT"⟩
        (GenerateJWT.claims sampleReads 7 "u@x.com" (15 * Minute))
        "h384.c" (some "HS384|k|h384.c")),
   ("hrs.c.sig",
      Decoded.parts ⟨some "RS256", some "JWT"⟩
        (GenerateJWT.claims sampleReads 7 "u@x.com" (15 * Minute))
        "hrs.c" (some "sig")),
   ("h.old.HS256|k|h.old",
      Decoded.parts hs256Header (GenerateJWT.claims (readsAt 0) 7 "u@x.com" (15 * Minute))
        "h.old" (some "HS256|k|h.old")),
   ("h.early.HS256|k|h.early",
      Decoded.parts hs256Header (GenerateJWT.claims (readsAt 5000) 7 "u@x.com" (15 * Minute))
        "h.early" (some "HS256|k|h.early")),
   ("hnoalg.c.sig",
      Decoded.parts ⟨none, some "JWT"⟩
        (GenerateJWT.claims sampleReads 7 "u@x.com" (15 * Minute))
        "hnoalg.c" (some "sig")),
   ("h.c.!!",
      Decoded.parts hs256Header (GenerateJWT.claims sampleReads 7 "u@x.com" (15 * Minute))
        "h.c" none)]

/-- A service over any state whose every method fails and leaves the state. -/
def unavailableService (σ : Type) : UserService σ where
  Register _ _ s := (.error (GoError.new "unavailable"), s)
  Login _ _ s := (.error (GoError.new "unavailable"), s)
  GetUserProfile _ s := (.error (GoError.new "unavailable"), s)
  UpdateUserProfile _ _ _ s := (.error (GoError.new "unavailable"), s)
  GetUserAddresses _ s := (.error (GoError.new "unavailable"), s)
  AddUserAddress _ _ s := (.error (GoError.new "unavailable"), s)
  UpdateUserAddress _ _ _ s := (.error (GoError.new "unavailable"), s)
  DeleteUserAddress _ _ s := (some (GoError.new "unavailable"), s)
  ValidateToken _ s := (.error (GoError.new "unavailable"), s)

/-- A fresh request carrying the given `Authorization` header. -/
def requestWith (authorization : String) : Context :=
  { Params := [], Headers := [(AuthorizationHeaderKey, authorization)], Body := "",
    Keys := [], Status := StatusOK, Written := [], Aborted := false }

/-- The sample service configured with a token expiry of zero, as
`JWT_EXPIRY_MINUTES=0` gives. -/
def sampleImplZeroExpiry : userServiceImpl :=
  { sampleImpl ⟨[], none⟩ with cfg := { sampleConfig with JWTExpiry := 0 } }

/-- The sample service with a second account, id 8, whose stored hash is not a
bcrypt hash. -/
def sampleImplBadHash : userServiceImpl :=
  { db := { users := [sampleUser 7 "u@x.com" "bcrypt:secret1",
                      sampleUser 8 "v@x.com" "not-a-hash"],
            addresses := [], fault := none },
    rdb := ⟨[], none⟩, cfg := sampleConfig }

/-- `time.Now()` read just before, just before, and at the start of the second
1001 s. -/
def straddlingReads : NowReads :=
  { forExpiresAt := 1000 * Second + 999999998, forIssuedAt := 1000 * Second + 999999999,
    forNotBefore := 1001 * Second }

/-- An environment with every required variable and the given value of
`JWT_EXPIRY_MINUTES`. -/
def sampleEnv (minutes : String) : Env :=
  [("DATABASE_URL", "dsn"), ("REDIS_ADDR", "localhost:6379"), ("JWT_SECRET", "k"),
   ("JWT_EXPIRY_MINUTES", minutes)]

/-- The configuration `LoadConfig` produces from `sampleEnv "15"`. -/
def loadedConfig : Config :=
  { HTTPPort := "8080", GRPCPort := "50051", DatabaseURL := "dsn",
    RedisAddr := "localhost:6379", RedisPassword := "", RedisDB := 0, JWTSecret := "k",
    JWTExpiry := 15 * Minute }

/-! # Theorems -/

/-! ## Authorization guard -/

theorem AbortWithStatusJSON_fresh (c : Context) (code : Nat) (obj : Payload)
    (h : c.Written = []) :
    (c.AbortWithStatusJSON code obj).Status = code ∧
    (c.AbortWithStatusJSON code obj).Aborted = true ∧
    (c.AbortWithStatusJSON code obj).Written = [obj] := by
  simp [Context.AbortWithStatusJSON, Context.JSON, Context.setStatus, h]

/-- C1: `checkPermissions` allows exactly when the request context holds, under
the key `userClaims`, claims whose `UserID` equals the requested user id; when it
allows it leaves the context untouched, and when it denies (different id, no
value under the key, or a value that is not claims) it aborts the request and
writes the permission error, with status 403 on a fresh response. -/
theorem checkPermissions_allow_iff (c : Context) (requestedUserID : Nat) :
    UserContextKey = "userClaims" ∧
    ((checkPermissions c requestedUserID).2 = true ↔
      ∃ cl, c.Get UserContextKey = some (CtxVal.claims cl) ∧ cl.UserID = requestedUserID) ∧
    ((checkPermissions c requestedUserID).2 = true →
      (checkPermissions c requestedUserID).1 = c) ∧
    ((checkPermissions c requestedUserID).2 = false →
      (checkPermissions c requestedUserID).1.Aborted = true ∧
      (checkPermissions c requestedUserID).1.Written = c.Written ++ [forbiddenBody] ∧
      (c.Written = [] → (checkPermissions c requestedUserID).1.Status = StatusForbidden)) := by
  refine ⟨rfl, ?_⟩
  unfold checkPermissions GetUserClaims
  cases hget : c.Get UserContextKey with
  | none =>
    by_cases hw : c.Written = [] <;>
      simp [Context.AbortWithStatusJSON, Context.JSON, Context.setStatus, hw]
  | some v =>
    cases v with
    | other r =>
      by_cases hw : c.Written = [] <;>
        simp [Context.AbortWithStatusJSON, Context.JSON, Context.setStatus, hw]
    | claims cl =>
      by_cases hid : cl.UserID = requestedUserID
      · simp [hid]
      · by_cases hw : c.Written = [] <;>
          simp [hid, Context.AbortWithStatusJSON, Context.JSON, Context.setStatus, hw]

/-- C1 at concrete requests: user 7 asking for user 7 is allowed, user 7 asking
for user 8 and an unauthenticated request are denied with 403. -/
theorem checkPermissions_allow_iff_witness :
    (checkPermissions (sampleContext [] (some 7)) 7).2 = true ∧
    (checkPermissions (sampleContext [] (some 7)) 7).1 = sampleContext [] (some 7) ∧
    (checkPermissions (sampleContext [] (some 7)) 8).2 = false ∧
    (checkPermissions (sampleContext [] (some 7)) 8).1.Status = StatusForbidden ∧
    (checkPermissions (sampleContext [] none) 8).1.Aborted = true :=
  ⟨((checkPermissions_allow_iff (sampleContext [] (some 7)) 7).2.1).2
      ⟨sampleClaims 7, by decide, by decide⟩,
   (checkPermissions_allow_iff (sampleContext [] (some 7)) 7).2.2.1 (by decide),
   by decide,
   ((checkPermissions_allow_iff (sampleContext [] (some 7)) 8).2.2.2 (by decide)).2.2
      (by decide),
   ((checkPermissions_allow_iff (sampleContext [] none) 8).2.2.2 (by decide)).1⟩

theorem checkPermissions_deny (c : Context) (requestedUserID : Nat) (cl : Claims)
    (hcl : c.Get UserContextKey = some (CtxVal.claims cl))
    (hne : cl.UserID ≠ requestedUserID) :
    checkPermissions c requestedUserID =
      (c.AbortWithStatusJSON StatusForbidden forbiddenBody, false) := by
  simp [checkPermissions, GetUserClaims, hcl, hne]

/-- C2 (as stated, refuted): user 1 sends `PUT /api/users/2/addresses/abc`; the
path user id 2 differs from the authenticated id 1, yet `UpdateAddress` answers
400, not 403, because the address id is parsed before the guard runs. -/
theorem UpdateAddress_mismatch_answers_400 :
    ParseUint32 ((sampleContext [("id", "2"), ("addrId", "abc")] (some 1)).Param "id") = some 2 ∧
    (sampleContext [("id", "2"), ("addrId", "abc")] (some 1)).Get "userClaims"
      = some (CtxVal.claims (sampleClaims 1)) ∧
    (sampleClaims 1).UserID ≠ 2 ∧
    (UserHandler.UpdateAddress (samplePrimitives "" []) sampleService.logged
      (sampleContext [("id", "2"), ("addrId", "abc")] (some 1)) ((), [])).1.Status
        = StatusBadRequest ∧
    StatusBadRequest ≠ StatusForbidden := by
  decide

/-- C2 (amended): for a request whose path user id parses as an unsigned 32-bit
decimal and differs from the `UserID` of the claims stored under `userClaims`,
`GetProfile`, `UpdateProfile`, `ListAddresses` and `AddAddress` abort with the
403 answer and leave the service state and the log of service calls as they
were; `UpdateAddress` and `DeleteAddress` do the same when the address id of the
path parses too, and when it does not they answer 400 "Invalid address ID
format", again without any service call.  When the path user id does not parse,
all six handlers answer 400 "Invalid user ID format" without any service
call. -/
theorem guarded_handlers_mismatch {σ : Type} (P : Primitives) (h : UserService σ)
    (c : Context) (s : σ) (log : List Method) :
    (∀ (userID : Nat) (cl : Claims),
      ParseUint32 (c.Param "id") = some userID →
      c.Get UserContextKey = some (CtxVal.claims cl) →
      cl.UserID ≠ userID →
      UserHandler.GetProfile h.logged c (s, log)
        = (c.AbortWithStatusJSON StatusForbidden forbiddenBody, (s, log)) ∧
      UserHandler.UpdateProfile P h.logged c (s, log)
        = (c.AbortWithStatusJSON StatusForbidden forbiddenBody, (s, log)) ∧
      UserHandler.ListAddresses h.logged c (s, log)
        = (c.AbortWithStatusJSON StatusForbidden forbiddenBody, (s, log)) ∧
      UserHandler.AddAddress P h.logged c (s, log)
        = (c.AbortWithStatusJSON StatusForbidden forbiddenBody, (s, log)) ∧
      ((ParseUint32 (c.Param "addrId")).isSome = true →
        UserHandler.UpdateAddress P h.logged c (s, log)
          = (c.AbortWithStatusJSON StatusForbidden forbiddenBody, (s, log)) ∧
        UserHandler.DeleteAddress h.logged c (s, log)
          = (c.AbortWithStatusJSON StatusForbidden forbiddenBody, (s, log))) ∧
      (ParseUint32 (c.Param "addrId") = none →
        UserHandler.UpdateAddress P h.logged c (s, log)
          = (c.JSON StatusBadRequest (errorBody "Invalid address ID format"), (s, log)) ∧
        UserHandler.DeleteAddress h.logged c (s, log)
          = (c.JSON StatusBadRequest (errorBody "Invalid address ID format"), (s, log)))) ∧
    (ParseUint32 (c.Param "id") = none →
      UserHandler.GetProfile h.logged c (s, log)
        = (c.JSON StatusBadRequest (errorBody "Invalid user ID format"), (s, log)) ∧
      UserHandler.UpdateProfile P h.logged c (s, log)
        = (c.JSON StatusBadRequest (errorBody "Invalid user ID format"), (s, log)) ∧
      UserHandler.ListAddresses h.logged c (s, log)
        = (c.JSON StatusBadRequest (errorBody "Invalid user ID format"), (s, log)) ∧
      UserHandler.AddAddress P h.logged c (s, log)
        = (c.JSON StatusBadRequest (errorBody "Invalid user ID format"), (s, log)) ∧
      UserHandler.UpdateAddress P h.logged c (s, log)
        = (c.JSON StatusBadRequest (errorBody "Invalid user ID format"), (s, log)) ∧
      UserHandler.DeleteAddress h.logged c (s, log)
        = (c.JSON StatusBadRequest (errorBody "Invalid user ID format"), (s, log))) ∧
    (c.Written = [] →
      ((c.AbortWithStatusJSON StatusForbidden forbiddenBody).Status = StatusForbidden ∧
       (c.AbortWithStatusJSON StatusForbidden forbiddenBody).Aborted = true ∧
       (c.AbortWithStatusJSON StatusForbidden forbiddenBody).Written = [forbiddenBody]) ∧
      (∀ msg, (c.JSON StatusBadRequest (errorBody msg)).Status = StatusBadRequest ∧
        (c.JSON StatusBadRequest (errorBody msg)).Written = [errorBody msg])) := by
  refine ⟨?_, ?_, ?_⟩
  · intro userID cl hid hcl hne
    have hdeny := checkPermissions_deny c userID cl hcl hne
    refine ⟨?_, ?_, ?_, ?_, ?_, ?_⟩
    · simp [UserHandler.GetProfile, getUserIDFromParam, hid, hdeny]
    · simp [UserHandler.UpdateProfile, getUserIDFromParam, hid, hdeny]
    · simp [UserHandler.ListAddresses, getUserIDFromParam, hid, hdeny]
    · simp [UserHandler.AddAddress, getUserIDFromParam, hid, hdeny]
    · intro ha
      obtain ⟨addrID, ha⟩ := Option.isSome_iff_exists.mp ha
      constructor
      · simp [UserHandler.UpdateAddress, getUserIDFromParam, getAddressIDFromParam, hid, ha,
          hdeny]
      · simp [UserHandler.DeleteAddress, getUserIDFromParam, getAddressIDFromParam, hid, ha,
          hdeny]
    · intro ha
      constructor
      · simp [UserHandler.UpdateAddress, getUserIDFromParam, getAddressIDFromParam, hid, ha]
      · simp [UserHandler.DeleteAddress, getUserIDFromParam, getAddressIDFromParam, hid, ha]
  · intro hid
    refine ⟨?_, ?_, ?_, ?_, ?_, ?_⟩
    · simp [UserHandler.GetProfile, getUserIDFromParam, hid]
    · simp [UserHandler.UpdateProfile, getUserIDFromParam, hid]
    · simp [UserHandler.ListAddresses, getUserIDFromParam, hid]
    · simp [UserHandler.AddAddress, getUserIDFromParam, hid]
    · simp [UserHandler.UpdateAddress, getUserIDFromParam, hid]
    · simp [UserHandler.DeleteAddress, getUserIDFromParam, hid]
  · intro hw
    refine ⟨AbortWithStatusJSON_fresh c _ _ hw, ?_⟩
    intro msg
    simp [Context.JSON, Context.setStatus, hw]

/-- C2 (amended) at concrete requests of user 1 against the resources of user 2:
`GET /api/users/2` and `DELETE /api/users/2/addresses/5` answer 403 with no
service call, `DELETE /api/users/2/addresses/abc` answers 400 with no service
call, and `GET /api/users/4294967296` answers 400 with no service call. -/
theorem guarded_handlers_mismatch_witness :
    UserHandler.GetProfile sampleService.logged
        (sampleContext [("id", "2"), ("addrId", "5")] (some 1)) ((), [])
      = ((sampleContext [("id", "2"), ("addrId", "5")] (some 1)).AbortWithStatusJSON
          StatusForbidden forbiddenBody, ((), [])) ∧
    UserHandler.DeleteAddress sampleService.logged
        (sampleContext [("id", "2"), ("addrId", "5")] (some 1)) ((), [])
      = ((sampleContext [("id", "2"), ("addrId", "5")] (some 1)).AbortWithStatusJSON
          StatusForbidden forbiddenBody, ((), [])) ∧
    ((sampleContext [("id", "2"), ("addrId", "5")] (some 1)).AbortWithStatusJSON
        StatusForbidden forbiddenBody).Status = StatusForbidden ∧
    UserHandler.DeleteAddress sampleService.logged
        (sampleContext [("id", "2"), ("addrId", "abc")] (some 1)) ((), [])
      = ((sampleContext [("id", "2"), ("addrId", "abc")] (some 1)).JSON StatusBadRequest
          (errorBody "Invalid address ID format"), ((), [])) ∧
    UserHandler.GetProfile sampleService.logged
        (sampleContext [("id", "4294967296")] (some 1)) ((), [])
      = ((sampleContext [("id", "4294967296")] (some 1)).JSON StatusBadRequest
          (errorBody "Invalid user ID format"), ((), [])) :=
  have h5 := (guarded_handlers_mismatch (samplePrimitives "" []) sampleService
    (sampleContext [("id", "2"), ("addrId", "5")] (some 1)) () []).1 2 (sampleClaims 1)
    (by decide) (by decide) (by decide)
  have hfresh := (guarded_handlers_mismatch (samplePrimitives "" []) sampleService
    (sampleContext [("id", "2"), ("addrId", "5")] (some 1)) () []).2.2 (by decide)
  have hbad := (guarded_handlers_mismatch (samplePrimitives "" []) sampleService
    (sampleContext [("id", "2"), ("addrId", "abc")] (some 1)) () []).1 2 (sampleClaims 1)
    (by decide) (by decide) (by decide)
  have hbig := (guarded_handlers_mismatch (samplePrimitives "" []) sampleService
    (sampleContext [("id", "4294967296")] (some 1)) () []).2.1 (by decide)
  ⟨h5.1, (h5.2.2.2.2.1 (by decide)).2, hfresh.1.1, (hbad.2.2.2.2.2 (by decide)).2, hbig.1⟩

/-! ## Ownership check of the address methods -/

theorem leastBy_nil {α : Type} (key : α → Nat) : leastBy key ([] : List α) = none := rfl

theorem FirstAddress_not_found (db : DB) (userID addrID : Nat)
    (hup : db.fault = none)
    (hown : ∀ a ∈ db.addresses, a.DeletedAt = none → a.ID = addrID → a.UserID ≠ userID) :
    db.FirstAddress (fun a => a.ID == addrID && a.UserID == userID)
      = .error Sentinel.ErrRecordNotFound.err := by
  have hfilter : db.addresses.filter
      (fun a => a.DeletedAt.isNone && (a.ID == addrID && a.UserID == userID)) = [] := by
    rw [List.filter_eq_nil_iff]
    intro a ha hmatch
    simp only [Bool.and_eq_true, beq_iff_eq, Option.isNone_iff_eq_none] at hmatch
    exact hown a ha hmatch.1 hmatch.2.1 hmatch.2.2
  simp [DB.FirstAddress, hup, hfilter, leastBy_nil]

/-- C3: when the database answers and no live address row has both id `addrID`
and owner `userID` (the address belongs to someone else, or is absent),
`UpdateUserAddress` and `DeleteUserAddress` return the error "address not found
or does not belong to user" and the service, with every stored row, is
unchanged. -/
theorem address_methods_reject_foreign (now : Time) (s : userServiceImpl)
    (userID addrID : Nat) (updatedAddr : Address)
    (hup : s.db.fault = none)
    (hown : ∀ a ∈ s.db.addresses, a.DeletedAt = none → a.ID = addrID → a.UserID ≠ userID) :
    s.UpdateUserAddress now userID addrID updatedAddr
      = (.error (GoError.new "address not found or does not belong to user"), s) ∧
    s.DeleteUserAddress now userID addrID
      = (some (GoError.new "address not found or does not belong to user"), s) := by
  have hfirst := FirstAddress_not_found s.db userID addrID hup hown
  constructor
  · simp [userServiceImpl.UpdateUserAddress, hfirst, Sentinel.err, GoError.Is]
  · simp [userServiceImpl.DeleteUserAddress, hfirst, Sentinel.err, GoError.Is]

/-- C3 at a concrete store: user 7 addressing address 9, which user 8 owns, and
address 4, which does not exist. -/
theorem address_methods_reject_foreign_witness :
    ((sampleImpl ⟨[], none⟩).UpdateUserAddress 50 7 9 (sampleAddress 0 0)
      = (.error (GoError.new "address not found or does not belong to user"),
          sampleImpl ⟨[], none⟩) ∧
     (sampleImpl ⟨[], none⟩).DeleteUserAddress 50 7 9
      = (some (GoError.new "address not found or does not belong to user"),
          sampleImpl ⟨[], none⟩)) ∧
    (sampleImpl ⟨[], none⟩).DeleteUserAddress 50 7 4
      = (some (GoError.new "address not found or does not belong to user"),
          sampleImpl ⟨[], none⟩) :=
  ⟨address_methods_reject_foreign 50 (sampleImpl ⟨[], none⟩) 7 9 (sampleAddress 0 0)
      (by decide) (by decide),
   (address_methods_reject_foreign 50 (sampleImpl ⟨[], none⟩) 7 4 (sampleAddress 0 0)
      (by decide) (by decide)).2⟩

/-! ## Login -/

theorem FirstUser_not_found (db : DB) (email : String)
    (hup : db.fault = none)
    (habsent : ∀ u ∈ db.users, u.DeletedAt = none → u.Email ≠ email) :
    db.FirstUser (fun u => u.Email == email) = .error Sentinel.ErrRecordNotFound.err := by
  have hfilter : db.users.filter (fun u => u.DeletedAt.isNone && u.Email == email) = [] := by
    rw [List.filter_eq_nil_iff]
    intro u hu hmatch
    simp only [Bool.and_eq_true, beq_iff_eq, Option.isNone_iff_eq_none] at hmatch
    exact habsent u hu hmatch.1 hmatch.2
  simp [DB.FirstUser, hup, hfilter, leastBy_nil]

theorem Login_unknown_email (P : Primitives) (clk : NowReads) (s : userServiceImpl)
    (email password : String)
    (hfirst : s.db.FirstUser (fun u => u.Email == email)
      = .error Sentinel.ErrRecordNotFound.err) :
    s.Login P clk email password = (.error (GoError.new "invalid email or password"), s) := by
  simp [userServiceImpl.Login, hfirst, Sentinel.err, GoError.Is]

theorem Login_wrong_password (P : Primitives) (clk : NowReads) (s : userServiceImpl)
    (email password : String) (u : User)
    (hfirst : s.db.FirstUser (fun u => u.Email == email) = .ok u)
    (hpw : CheckPasswordHash P password u.PasswordHash = false) :
    s.Login P clk email password = (.error (GoError.new "invalid email or password"), s) := by
  simp [userServiceImpl.Login, hfirst, hpw]

/-- C4: with the database answering, `Login` with an email that no live account
has and `Login` with the email of an account whose hash the password does not
verify against return the same result, the error "invalid email or password"
and no token, and leave the service unchanged; the HTTP handler answers both
with the same 401 body. -/
theorem Login_failures_indistinguishable (P : Primitives) (clk : NowReads)
    (s : userServiceImpl) (email₁ password₁ email₂ password₂ : String) (u : User)
    (hup : s.db.fault = none)
    (habsent : ∀ v ∈ s.db.users, v.DeletedAt = none → v.Email ≠ email₁)
    (hacct : s.db.FirstUser (fun v => v.Email == email₂) = .ok u)
    (hpw : CheckPasswordHash P password₂ u.PasswordHash = false) :
    s.Login P clk email₁ password₁ = (.error (GoError.new "invalid email or password"), s) ∧
    s.Login P clk email₂ password₂ = (.error (GoError.new "invalid email or password"), s) ∧
    (s.Login P clk email₁ password₁).1 = (s.Login P clk email₂ password₂).1 ∧
    (∀ (h : UserService userServiceImpl) (c₁ c₂ : Context),
      P.bindLogin c₁.Body = .ok (email₁, password₁) →
      P.bindLogin c₂.Body = .ok (email₂, password₂) →
      UserHandler.Login P (userServiceImpl.withLogin P clk h) c₁ s
        = (c₁.JSON StatusUnauthorized (errorBody "invalid email or password"), s) ∧
      UserHandler.Login P (userServiceImpl.withLogin P clk h) c₂ s
        = (c₂.JSON StatusUnauthorized (errorBody "invalid email or password"), s)) := by
  have h₁ := Login_unknown_email P clk s email₁ password₁
    (FirstUser_not_found s.db email₁ hup habsent)
  have h₂ := Login_wrong_password P clk s email₂ password₂ u hacct hpw
  refine ⟨h₁, h₂, by rw [h₁, h₂], ?_⟩
  intro h c₁ c₂ hb₁ hb₂
  constructor
  · simp [UserHandler.Login, userServiceImpl.withLogin, hb₁, h₁, GoError.new]
  · simp [UserHandler.Login, userServiceImpl.withLogin, hb₂, h₂, GoError.new]

/-- C4 at a concrete store holding only the account `u@x.com` with password
`secret1`: the unknown email `nobody@x.com` and the wrong password `secret2`
give the same result. -/
theorem Login_failures_indistinguishable_witness :
    ((sampleImpl ⟨[], none⟩).Login (samplePrimitives "" []) sampleReads
        "nobody@x.com" "secret1").1
      = ((sampleImpl ⟨[], none⟩).Login (samplePrimitives "" []) sampleReads
        "u@x.com" "secret2").1 :=
  (Login_failures_indistinguishable (samplePrimitives "" []) sampleReads
    (sampleImpl ⟨[], none⟩) "nobody@x.com" "secret1" "u@x.com" "secret2"
    (sampleUser 7 "u@x.com" "bcrypt:secret1")
    (by decide) (by decide) (by rfl) (by decide)).2.2.1

/-- C5: once the account is found, the password verifies and the token is
signed, `Login` returns that token with a nil error whatever the cache is, so
the result is the same under a cache whose write fails and one whose write
succeeds; a failing write leaves the cache as it was. -/
theorem Login_soft_fail (P : Primitives) (clk : NowReads) (db : DB) (cfg : Config)
    (r₁ r₂ : Redis) (email password : String) (u : User) (tok : String)
    (hacct : db.FirstUser (fun v => v.Email == email) = .ok u)
    (hpw : CheckPasswordHash P password u.PasswordHash = true)
    (hsign : GenerateJWT P clk u.ID u.Email cfg.JWTSecret cfg.JWTExpiry = .ok tok) :
    (userServiceImpl.Login P clk ⟨db, r₁, cfg⟩ email password).1 = .ok tok ∧
    (userServiceImpl.Login P clk ⟨db, r₁, cfg⟩ email password).1
      = (userServiceImpl.Login P clk ⟨db, r₂, cfg⟩ email password).1 ∧
    ((r₁.Set (jwtKey u.ID) tok cfg.JWTExpiry).1 ≠ none →
      (userServiceImpl.Login P clk ⟨db, r₁, cfg⟩ email password).2 = ⟨db, r₁, cfg⟩) := by
  have hlogin : ∀ r : Redis, userServiceImpl.Login P clk ⟨db, r, cfg⟩ email password
      = (.ok tok, ⟨db, (r.Set (jwtKey u.ID) tok cfg.JWTExpiry).2, cfg⟩) := by
    intro r
    simp [userServiceImpl.Login, hacct, hpw, hsign]
  refine ⟨by rw [hlogin], by rw [hlogin, hlogin], ?_⟩
  intro hfail
  rw [hlogin]
  cases hf : r₁.fault with
  | none => simp [Redis.Set, hf] at hfail
  | some m => simp [Redis.Set, hf]

/-- C5 at a concrete login: the cache that refuses connections and the empty
reachable cache give the same token and a nil error. -/
theorem Login_soft_fail_witness :
    (userServiceImpl.Login (samplePrimitives "h.c" []) sampleReads
        (sampleImpl ⟨[], some "dial tcp: connection refused"⟩) "u@x.com" "secret1").1
      = .ok "h.c.HS256|k|h.c" ∧
    (userServiceImpl.Login (samplePrimitives "h.c" []) sampleReads
        (sampleImpl ⟨[], some "dial tcp: connection refused"⟩) "u@x.com" "secret1").1
      = (userServiceImpl.Login (samplePrimitives "h.c" []) sampleReads
        (sampleImpl ⟨[], none⟩) "u@x.com" "secret1").1 :=
  have h := Login_soft_fail (samplePrimitives "h.c" []) sampleReads (sampleImpl ⟨[], none⟩).db
    sampleConfig ⟨[], some "dial tcp: connection refused"⟩ ⟨[], none⟩ "u@x.com" "secret1"
    (sampleUser 7 "u@x.com" "bcrypt:secret1") "h.c.HS256|k|h.c"
    (by rfl) (by decide) (by rfl)
  ⟨h.1, h.2.1⟩

/-! ## Token validation -/

theorem GetSigningMethod_Alg (m : SigningMethod) : GetSigningMethod m.Alg = some m := by
  cases m <;> rfl

theorem GetSigningMethod_some (alg : String) (m : SigningMethod)
    (h : GetSigningMethod alg = some m) : m.Alg = alg := by
  have := List.find?_some h
  simpa using this

theorem isHMAC_Alg (m : SigningMethod) (h : m.isHMAC = true) :
    m.Alg = "HS256" ∨ m.Alg = "HS384" ∨ m.Alg = "HS512" := by
  cases m <;> simp_all [SigningMethod.isHMAC, SigningMethod.Alg]

theorem NewNumericDate_le (t : Time) : NewNumericDate t ≤ t := by
  unfold NewNumericDate Second
  exact Int.ediv_mul_le t (by decide)

/-- The parser marks a token valid exactly when it reports no error. -/
theorem ParseWithClaims_Valid_iff (P : Primitives) (now : Time) (tokenString : String)
    (keyFunc : Token → Except GoError String) :
    (ParseWithClaims P now tokenString keyFunc).1.Valid = true ↔
      (ParseWithClaims P now tokenString keyFunc).2 = none := by
  unfold ParseWithClaims
  cases P.decodeToken tokenString with
  | malformed d => simp [Token.zero]
  | parts header claims text signature =>
    obtain ⟨alg, typ⟩ := header
    cases alg with
    | none => simp
    | some alg =>
      dsimp only
      cases GetSigningMethod alg with
      | none => simp
      | some m =>
        cases signature with
        | none => simp
        | some sig =>
          dsimp only
          cases keyFunc { Raw := tokenString, Method := some m, Header := ⟨some alg, typ⟩,
                          Claims := claims, Signature := sig, Valid := false } with
          | error e => simp
          | ok key =>
            dsimp only
            cases m.Verify P text sig key with
            | some e => simp
            | none => cases Validate now claims <;> simp

/-- The parser hands back the decoded claims of a token it marks valid. -/
theorem ParseWithClaims_signed (P : Primitives) (now : Time) (secret tokenString : String)
    (m : SigningMethod) (cl : Claims) (h : SignedBy P secret tokenString m cl) :
    ∃ tok : Token, tok.Claims = cl ∧ tok.Valid = false ∧
      ParseWithClaims P now tokenString (ValidateJWT.keyFunc secret) =
        match Validate now cl with
        | some e => (tok, some (newError "" .ErrTokenInvalidClaims [e]))
        | none => ({ tok with Valid := true }, none) := by
  obtain ⟨hm, typ, text, hdec⟩ := h
  refine ⟨{ Raw := tokenString, Method := some m, Header := ⟨some m.Alg, typ⟩, Claims := cl,
            Signature := P.hmacSum m secret text, Valid := false }, rfl, rfl, ?_⟩
  simp only [ParseWithClaims, hdec, GetSigningMethod_Alg, ValidateJWT.keyFunc, hm,
    SigningMethod.Verify, if_true]

theorem Validate_none (now : Time) (cl : Claims)
    (hexp : ∀ e, cl.ExpiresAt = some e → now < e)
    (hnbf : ∀ n, cl.NotBefore = some n → n ≤ now) : Validate now cl = none := by
  unfold Validate
  cases he : cl.ExpiresAt with
  | none =>
    cases hn : cl.NotBefore with
    | none => simp
    | some n => simp [not_lt.mpr (hnbf n hn)]
  | some e =>
    cases hn : cl.NotBefore with
    | none => simp [hexp e he]
    | some n => simp [hexp e he, not_lt.mpr (hnbf n hn)]

theorem Validate_expired (now : Time) (cl : Claims) (exp : Time)
    (hexp : cl.ExpiresAt = some exp) (hpast : exp ≤ now) :
    ∃ e, Validate now cl = some e ∧ e.Is .ErrTokenExpired = true := by
  unfold Validate
  cases hn : cl.NotBefore with
  | none => simp [hexp, not_lt.mpr hpast, joinErrors, Sentinel.err, GoError.Is]
  | some n =>
    by_cases hlt : now < n <;>
      simp [hexp, not_lt.mpr hpast, hlt, joinErrors, Sentinel.err, GoError.Is]

theorem Validate_not_yet (now : Time) (cl : Claims) (nbf : Time)
    (hnbf : cl.NotBefore = some nbf) (hfuture : now < nbf)
    (hexp : ∀ e, cl.ExpiresAt = some e → now < e) :
    Validate now cl = some Sentinel.ErrTokenNotValidYet.err := by
  unfold Validate
  cases he : cl.ExpiresAt with
  | none =>
    simp [hnbf, hfuture, joinErrors, Sentinel.err, String.intercalate, String.intercalate.go]
  | some e =>
    simp [hnbf, hfuture, hexp e he, joinErrors, Sentinel.err, String.intercalate,
      String.intercalate.go]

/-- A token that is signed with an HMAC method under the secret and is within
its time bounds validates to its claims. -/
theorem ValidateJWT_signed_live (P : Primitives) (now : Time) (secret tokenString : String)
    (m : SigningMethod) (cl : Claims) (h : SignedBy P secret tokenString m cl)
    (hexp : ∀ e, cl.ExpiresAt = some e → now < e)
    (hnbf : ∀ n, cl.NotBefore = some n → n ≤ now) :
    ValidateJWT P now tokenString secret = .ok cl := by
  obtain ⟨tok, hcl, -, hparse⟩ := ParseWithClaims_signed P now secret tokenString m cl h
  rw [Validate_none now cl hexp hnbf] at hparse
  simp [ValidateJWT, hparse, ValidateJWT.early, hcl]

/-- C7: `ValidateJWT` returns claims only when the parser reported no error and
marked the token valid, and the claims are then the parser's; whenever the
parser's error is `ErrTokenNotValidYet`, `ValidateJWT` returns an error and no
claims. -/
theorem ValidateJWT_no_partial_trust (P : Primitives) (now : Time)
    (tokenString secret : String) :
    (∀ cl, ValidateJWT P now tokenString secret = .ok cl →
      (ParseWithClaims P now tokenString (ValidateJWT.keyFunc secret)).2 = none ∧
      (ParseWithClaims P now tokenString (ValidateJWT.keyFunc secret)).1.Valid = true ∧
      (ParseWithClaims P now tokenString (ValidateJWT.keyFunc secret)).1.Claims = cl) ∧
    (errIs (ParseWithClaims P now tokenString (ValidateJWT.keyFunc secret)).2
        .ErrTokenNotValidYet = true →
      ∃ e, ValidateJWT P now tokenString secret = .error e) := by
  have hv := ParseWithClaims_Valid_iff P now tokenString (ValidateJWT.keyFunc secret)
  unfold ValidateJWT
  generalize ParseWithClaims P now tokenString (ValidateJWT.keyFunc secret) = r at hv ⊢
  obtain ⟨token, err⟩ := r
  simp only at hv ⊢
  cases err with
  | none =>
    have hvalid : token.Valid = true := hv.mpr rfl
    simp [ValidateJWT.early, hvalid, errIs]
  | some e =>
    have hinvalid : token.Valid = false := by
      cases hval : token.Valid with
      | false => rfl
      | true => simpa using hv.mp hval
    constructor
    · intro cl hok
      cases hearly : ValidateJWT.early (some e) with
      | some e' => simp [hearly] at hok
      | none =>
        by_cases hn : errIs (some e) Sentinel.ErrTokenNotValidYet = true <;>
          simp [hearly, hinvalid, hn] at hok
    · intro _
      cases hearly : ValidateJWT.early (some e) with
      | some e' => exact ⟨e', by simp⟩
      | none =>
        by_cases hn : errIs (some e) Sentinel.ErrTokenNotValidYet = true <;>
          simp [hinvalid, hn]

/-- C7 at concrete tokens: the issued token validated at 1060 s is returned with
a parser that reported no error, and the same token validated at 900 s, before
its not-before time of 1000 s, is refused. -/
theorem ValidateJWT_no_partial_trust_witness :
    (ParseWithClaims (samplePrimitives "h.c" sampleTable) (1060 * Second) "h.c.HS256|k|h.c"
      (ValidateJWT.keyFunc "k")).2 = none ∧
    ∃ e, ValidateJWT (samplePrimitives "h.c" sampleTable) (900 * Second)
      "h.c.HS256|k|h.c" "k" = .error e :=
  ⟨((ValidateJWT_no_partial_trust (samplePrimitives "h.c" sampleTable) (1060 * Second)
      "h.c.HS256|k|h.c" "k").1 (GenerateJWT.claims sampleReads 7 "u@x.com" (15 * Minute))
      (by rfl)).1,
   (ValidateJWT_no_partial_trust (samplePrimitives "h.c" sampleTable) (900 * Second)
      "h.c.HS256|k|h.c" "k").2 (by rfl)⟩

theorem ValidateJWT_expired (P : Primitives) (now : Time) (secret tokenString : String)
    (m : SigningMethod) (cl : Claims) (exp : Time) (h : SignedBy P secret tokenString m cl)
    (hexp : cl.ExpiresAt = some exp) (hpast : exp ≤ now) :
    ValidateJWT P now tokenString secret = .error (GoError.new "token has expired") := by
  obtain ⟨tok, -, -, hparse⟩ := ParseWithClaims_signed P now secret tokenString m cl h
  obtain ⟨e, he, hIs⟩ := Validate_expired now cl exp hexp hpast
  rw [he] at hparse
  have hmem : Sentinel.ErrTokenExpired ∈ e.chain := by simpa [GoError.Is] using hIs
  simp [ValidateJWT, hparse, ValidateJWT.early, newError, GoError.Is, hmem]

theorem ValidateJWT_malformed (P : Primitives) (now : Time) (secret tokenString : String)
    (detail : String) (h : P.decodeToken tokenString = Decoded.malformed detail) :
    ValidateJWT P now tokenString secret = .error (GoError.new "malformed token") := by
  simp [ValidateJWT, ParseWithClaims, h, ValidateJWT.early, newError, GoError.Is]

theorem ValidateJWT_not_yet_valid (P : Primitives) (now : Time) (secret tokenString : String)
    (m : SigningMethod) (cl : Claims) (nbf : Time) (h : SignedBy P secret tokenString m cl)
    (hnbf : cl.NotBefore = some nbf) (hfuture : now < nbf)
    (hexp : ∀ e, cl.ExpiresAt = some e → now < e) :
    ValidateJWT P now tokenString secret = .error (GoError.new "token is not yet valid") := by
  obtain ⟨tok, -, hinvalid, hparse⟩ := ParseWithClaims_signed P now secret tokenString m cl h
  rw [Validate_not_yet now cl nbf hnbf hfuture hexp] at hparse
  simp [ValidateJWT, hparse, ValidateJWT.early, newError, GoError.Is, Sentinel.err, errIs,
    hinvalid]

theorem ValidateJWT_bad_signature_segment (P : Primitives) (now : Time)
    (secret tokenString : String) (header : Header) (cl : Claims) (text alg : String)
    (m : SigningMethod)
    (hdec : P.decodeToken tokenString = Decoded.parts header cl text none)
    (halg : header.alg = some alg) (hm : GetSigningMethod alg = some m) :
    ValidateJWT P now tokenString secret = .error (GoError.new "malformed token") := by
  obtain ⟨alg', typ⟩ := header
  simp only at halg
  subst halg
  simp [ValidateJWT, ParseWithClaims, hdec, hm, ValidateJWT.early, newError, GoError.Is]

theorem ValidateJWT_no_alg (P : Primitives) (now : Time) (secret tokenString : String)
    (header : Header) (cl : Claims) (text : String) (sig : Option String)
    (hdec : P.decodeToken tokenString = Decoded.parts header cl text sig)
    (halg : header.alg = none) :
    ValidateJWT P now tokenString secret
      = .error (GoError.wrap "couldn't handle this token"
          (newError "signing method (alg) is unspecified" .ErrTokenUnverifiable [])) := by
  obtain ⟨alg', typ⟩ := header
  simp only at halg
  subst halg
  simp [ValidateJWT, ParseWithClaims, hdec, ValidateJWT.early, newError, GoError.Is,
    GoError.wrap]

theorem ValidateJWT_unregistered_alg (P : Primitives) (now : Time)
    (secret tokenString : String) (header : Header) (cl : Claims) (text : String)
    (sig : Option String) (alg : String)
    (hdec : P.decodeToken tokenString = Decoded.parts header cl text sig)
    (halg : header.alg = some alg) (hm : GetSigningMethod alg = none) :
    ValidateJWT P now tokenString secret
      = .error (GoError.wrap "couldn't handle this token"
          (newError "signing method (alg) is unavailable" .ErrTokenUnverifiable [])) := by
  obtain ⟨alg', typ⟩ := header
  simp only at halg
  subst halg
  simp [ValidateJWT, ParseWithClaims, hdec, hm, ValidateJWT.early, newError, GoError.Is,
    GoError.wrap]

/-- C8 (as stated, refuted): a token that decodes, is within its time bounds and
whose only fault is structural, a header without `alg`, does not yield
"malformed token" but a fourth error, "couldn't handle this token: token is
unverifiable: signing method (alg) is unspecified". -/
theorem ValidateJWT_no_alg_not_malformed :
    (samplePrimitives "h.c" sampleTable).decodeToken "hnoalg.c.sig"
      = Decoded.parts ⟨none, some "JWT"⟩
          (GenerateJWT.claims sampleReads 7 "u@x.com" (15 * Minute))
          "hnoalg.c" (some "sig") ∧
    ValidateJWT (samplePrimitives "h.c" sampleTable) (1060 * Second) "hnoalg.c.sig" "k"
      = .error ⟨"couldn't handle this token: token is unverifiable: signing method (alg) is unspecified",
          [Sentinel.ErrTokenUnverifiable]⟩ ∧
    "couldn't handle this token: token is unverifiable: signing method (alg) is unspecified"
      ≠ "malformed token" ∧
    "couldn't handle this token: token is unverifiable: signing method (alg) is unspecified"
      ≠ "token has expired" ∧
    "couldn't handle this token: token is unverifiable: signing method (alg) is unspecified"
      ≠ "token is not yet valid" := by
  refine ⟨rfl, rfl, by decide, by decide, by decide⟩

/-- C8 (amended): a correctly signed token that is expired yields "token has
expired"; a token string that does not decode into header and claims, or whose
signature segment is not base64url under a registered algorithm, yields
"malformed token"; a correctly signed, unexpired token used before its
not-before time yields "token is not yet valid"; a token that decodes but whose
header has no `alg`, or names an algorithm that is not registered, yields a
fourth error, "couldn't handle this token: token is unverifiable: signing method
(alg) is unspecified" (respectively "... is unavailable").  The four errors are
pairwise different, in value and in text. -/
theorem ValidateJWT_failure_kinds (P : Primitives) (now : Time) (secret : String)
    (tExpired tMalformed tEarly tNoAlg : String) (m₁ m₃ : SigningMethod) (c₁ c₃ : Claims)
    (exp nbf : Time)
    (h₁ : SignedBy P secret tExpired m₁ c₁)
    (hexp₁ : c₁.ExpiresAt = some exp) (hpast : exp ≤ now)
    (h₂ : (∃ detail, P.decodeToken tMalformed = Decoded.malformed detail) ∨
      (∃ header cl text alg m, P.decodeToken tMalformed = Decoded.parts header cl text none ∧
        header.alg = some alg ∧ GetSigningMethod alg = some m))
    (h₃ : SignedBy P secret tEarly m₃ c₃)
    (hnbf₃ : c₃.NotBefore = some nbf) (hfuture : now < nbf)
    (hexp₃ : ∀ e, c₃.ExpiresAt = some e → now < e)
    (h₄ : ∃ header cl text sig, P.decodeToken tNoAlg = Decoded.parts header cl text sig ∧
      (header.alg = none ∨ ∃ alg, header.alg = some alg ∧ GetSigningMethod alg = none)) :
    ValidateJWT P now tExpired secret = .error (GoError.new "token has expired") ∧
    ValidateJWT P now tMalformed secret = .error (GoError.new "malformed token") ∧
    ValidateJWT P now tEarly secret = .error (GoError.new "token is not yet valid") ∧
    (∃ e, ValidateJWT P now tNoAlg secret = .error e ∧
      e.Is .ErrTokenUnverifiable = true ∧
      (e.msg = "couldn't handle this token: token is unverifiable: signing method (alg) is unspecified" ∨
       e.msg = "couldn't handle this token: token is unverifiable: signing method (alg) is unavailable") ∧
      e.msg ≠ "token has expired" ∧ e.msg ≠ "malformed token" ∧
      e.msg ≠ "token is not yet valid") ∧
    ValidateJWT P now tExpired secret ≠ ValidateJWT P now tMalformed secret ∧
    ValidateJWT P now tExpired secret ≠ ValidateJWT P now tEarly secret ∧
    ValidateJWT P now tMalformed secret ≠ ValidateJWT P now tEarly secret ∧
    ValidateJWT P now tNoAlg secret ≠ ValidateJWT P now tExpired secret ∧
    ValidateJWT P now tNoAlg secret ≠ ValidateJWT P now tMalformed secret ∧
    ValidateJWT P now tNoAlg secret ≠ ValidateJWT P now tEarly secret := by
  have e₁ := ValidateJWT_expired P now secret tExpired m₁ c₁ exp h₁ hexp₁ hpast
  have e₂ : ValidateJWT P now tMalformed secret = .error (GoError.new "malformed token") := by
    rcases h₂ with ⟨detail, hd⟩ | ⟨header, cl, text, alg, m, hd, halg, hm⟩
    · exact ValidateJWT_malformed P now secret tMalformed detail hd
    · exact ValidateJWT_bad_signature_segment P now secret tMalformed header cl text alg m
        hd halg hm
  have e₃ := ValidateJWT_not_yet_valid P now secret tEarly m₃ c₃ nbf h₃ hnbf₃ hfuture hexp₃
  have e₄ : ValidateJWT P now tNoAlg secret
        = .error (GoError.wrap "couldn't handle this token"
            (newError "signing method (alg) is unspecified" .ErrTokenUnverifiable [])) ∨
      ValidateJWT P now tNoAlg secret
        = .error (GoError.wrap "couldn't handle this token"
            (newError "signing method (alg) is unavailable" .ErrTokenUnverifiable [])) := by
    obtain ⟨header, cl, text, sig, hd, hcase⟩ := h₄
    rcases hcase with hnone | ⟨alg, halg, hm⟩
    · exact Or.inl (ValidateJWT_no_alg P now secret tNoAlg header cl text sig hd hnone)
    · exact Or.inr
        (ValidateJWT_unregistered_alg P now secret tNoAlg header cl text sig alg hd halg hm)
  refine ⟨e₁, e₂, e₃, ?_, ?_, ?_, ?_, ?_, ?_, ?_⟩
  · rcases e₄ with h | h
    · exact ⟨_, h, by decide, Or.inl (by decide), by decide, by decide, by decide⟩
    · exact ⟨_, h, by decide, Or.inr (by decide), by decide, by decide, by decide⟩
  · rw [e₁, e₂]; simp [GoError.new]
  · rw [e₁, e₃]; simp [GoError.new]
  · rw [e₂, e₃]; simp [GoError.new]
  · rcases e₄ with h | h <;> rw [h, e₁] <;> simp [GoError.new, GoError.wrap, newError]
  · rcases e₄ with h | h <;> rw [h, e₂] <;> simp [GoError.new, GoError.wrap, newError]
  · rcases e₄ with h | h <;> rw [h, e₃] <;> simp [GoError.new, GoError.wrap, newError]

/-- C8 (amended) at concrete tokens presented at 1060 s: a token that expired at
900 s, the string `garbage` and a token whose signature segment does not decode,
a token that becomes valid at 5000 s, and a token without `alg`. -/
theorem ValidateJWT_failure_kinds_witness :
    ValidateJWT (samplePrimitives "h.c" sampleTable) (1060 * Second) "h.old.HS256|k|h.old" "k"
      = .error (GoError.new "token has expired") ∧
    ValidateJWT (samplePrimitives "h.c" sampleTable) (1060 * Second) "garbage" "k"
      = .error (GoError.new "malformed token") ∧
    ValidateJWT (samplePrimitives "h.c" sampleTable) (1060 * Second) "h.c.!!" "k"
      = .error (GoError.new "malformed token") ∧
    ValidateJWT (samplePrimitives "h.c" sampleTable) (1060 * Second)
      "h.early.HS256|k|h.early" "k" = .error (GoError.new "token is not yet valid") ∧
    ValidateJWT (samplePrimitives "h.c" sampleTable) (1060 * Second) "hnoalg.c.sig" "k"
      ≠ ValidateJWT (samplePrimitives "h.c" sampleTable) (1060 * Second) "garbage" "k" :=
  have h := ValidateJWT_failure_kinds (samplePrimitives "h.c" sampleTable) (1060 * Second) "k"
    "h.old.HS256|k|h.old" "garbage" "h.early.HS256|k|h.early" "hnoalg.c.sig" .HS256 .HS256
    (GenerateJWT.claims (readsAt 0) 7 "u@x.com" (15 * Minute))
    (GenerateJWT.claims (readsAt 5000) 7 "u@x.com" (15 * Minute))
    (900 * Second) (5000 * Second)
    ⟨rfl, some "JWT", "h.old", rfl⟩ (by rfl) (by decide)
    (Or.inl ⟨"token contains an invalid number of segments", rfl⟩)
    ⟨rfl, some "JWT", "h.early", rfl⟩ (by rfl) (by decide)
    (by intro e he; cases he; decide)
    ⟨⟨none, some "JWT"⟩, GenerateJWT.claims sampleReads 7 "u@x.com" (15 * Minute),
      "hnoalg.c", some "sig", rfl, Or.inl rfl⟩
  have h' := ValidateJWT_failure_kinds (samplePrimitives "h.c" sampleTable) (1060 * Second) "k"
    "h.old.HS256|k|h.old" "h.c.!!" "h.early.HS256|k|h.early" "hnoalg.c.sig" .HS256 .HS256
    (GenerateJWT.claims (readsAt 0) 7 "u@x.com" (15 * Minute))
    (GenerateJWT.claims (readsAt 5000) 7 "u@x.com" (15 * Minute))
    (900 * Second) (5000 * Second)
    ⟨rfl, some "JWT", "h.old", rfl⟩ (by rfl) (by decide)
    (Or.inr ⟨hs256Header, GenerateJWT.claims sampleReads 7 "u@x.com" (15 * Minute), "h.c",
      "HS256", .HS256, rfl, rfl, rfl⟩)
    ⟨rfl, some "JWT", "h.early", rfl⟩ (by rfl) (by decide)
    (by intro e he; cases he; decide)
    ⟨⟨none, some "JWT"⟩, GenerateJWT.claims sampleReads 7 "u@x.com" (15 * Minute),
      "hnoalg.c", some "sig", rfl, Or.inl rfl⟩
  ⟨h.1, h.2.1, h'.2.1, h.2.2.1, h.2.2.2.2.2.2.2.2.1⟩

/-- C9 (as stated, refuted): the issued token with a forged signature is well
formed (it decodes, and names HS256) and its signature does not verify under
the key, yet `ValidateJWT` answers "couldn't handle this token: ..." carrying
`ErrTokenSignatureInvalid`, not the "malformed token" it answers for a string
that does not decode. -/
theorem ValidateJWT_forged_signature_not_malformed :
    (samplePrimitives "h.c" sampleTable).decodeToken "h.c.forged"
      = Decoded.parts hs256Header (GenerateJWT.claims sampleReads 7 "u@x.com" (15 * Minute))
          "h.c" (some "forged") ∧
    "forged" ≠ (samplePrimitives "h.c" sampleTable).hmacSum .HS256 "k" "h.c" ∧
    ValidateJWT (samplePrimitives "h.c" sampleTable) (1060 * Second) "h.c.forged" "k"
      = .error ⟨"couldn't handle this token: token signature is invalid: signature is invalid",
          [Sentinel.ErrTokenSignatureInvalid]⟩ ∧
    ValidateJWT (samplePrimitives "h.c" sampleTable) (1060 * Second) "garbage" "k"
      = .error (GoError.new "malformed token") ∧
    ValidateJWT (samplePrimitives "h.c" sampleTable) (1060 * Second) "h.c.forged" "k"
      ≠ ValidateJWT (samplePrimitives "h.c" sampleTable) (1060 * Second) "garbage" "k" := by
  refine ⟨rfl, by decide, rfl, rfl, ?_⟩
  intro h
  have h' : (Except.error ⟨"couldn't handle this token: token signature is invalid: signature is invalid",
      [Sentinel.ErrTokenSignatureInvalid]⟩ : Except GoError Claims)
      = .error (GoError.new "malformed token") := h
  simp [GoError.new] at h'

/-- C9 (amended): for every token that decodes, names an HMAC method and carries
a signature different from the HMAC of its signing input under the key,
`ValidateJWT` returns the library's signature error wrapped as "couldn't handle
this token: token signature is invalid: signature is invalid"; that error
carries `ErrTokenSignatureInvalid`, does not carry `ErrTokenMalformed`, and its
text is not "malformed token". -/
theorem ValidateJWT_bad_signature (P : Primitives) (now : Time) (secret tokenString : String)
    (m : SigningMethod) (typ : Option String) (cl : Claims) (text sig : String)
    (hm : m.isHMAC = true)
    (hdec : P.decodeToken tokenString = Decoded.parts ⟨some m.Alg, typ⟩ cl text (some sig))
    (hsig : sig ≠ P.hmacSum m secret text) :
    ValidateJWT P now tokenString secret
      = .error (GoError.wrap "couldn't handle this token"
          (newError "" .ErrTokenSignatureInvalid [GoError.new "signature is invalid"])) ∧
    (GoError.wrap "couldn't handle this token"
      (newError "" .ErrTokenSignatureInvalid [GoError.new "signature is invalid"])).msg
      = "couldn't handle this token: token signature is invalid: signature is invalid" ∧
    (GoError.wrap "couldn't handle this token"
      (newError "" .ErrTokenSignatureInvalid [GoError.new "signature is invalid"])).Is
        .ErrTokenSignatureInvalid = true ∧
    (GoError.wrap "couldn't handle this token"
      (newError "" .ErrTokenSignatureInvalid [GoError.new "signature is invalid"])).Is
        .ErrTokenMalformed = false ∧
    (GoError.wrap "couldn't handle this token"
      (newError "" .ErrTokenSignatureInvalid [GoError.new "signature is invalid"])).msg
      ≠ "malformed token" := by
  refine ⟨?_, by rfl, by decide, by decide, by decide⟩
  simp [ValidateJWT, ParseWithClaims, hdec, GetSigningMethod_Alg, ValidateJWT.keyFunc, hm,
    SigningMethod.Verify, hsig, ValidateJWT.early, newError, GoError.Is, GoError.wrap,
    GoError.new]

/-- C9 (amended) at the issued token with a forged signature. -/
theorem ValidateJWT_bad_signature_witness :
    ValidateJWT (samplePrimitives "h.c" sampleTable) (1060 * Second) "h.c.forged" "k"
      = .error (GoError.wrap "couldn't handle this token"
          (newError "" .ErrTokenSignatureInvalid [GoError.new "signature is invalid"])) :=
  (ValidateJWT_bad_signature (samplePrimitives "h.c" sampleTable) (1060 * Second) "k"
    "h.c.forged" .HS256 (some "JWT") (GenerateJWT.claims sampleReads 7 "u@x.com" (15 * Minute))
    "h.c" "forged" (by rfl) (by rfl) (by decide)).1

/-- C10 (as stated, refuted): a token whose header names HS384, not the HS256 of
`GenerateJWT`, and that is signed with HS384 under the secret: the key function
supplies the key and `ValidateJWT` returns the claims. -/
theorem ValidateJWT_accepts_HS384 :
    (samplePrimitives "h.c" sampleTable).decodeToken "h384.c.HS384|k|h384.c"
      = Decoded.parts ⟨some "HS384", some "JWT"⟩
          (GenerateJWT.claims sampleReads 7 "u@x.com" (15 * Minute))
          "h384.c" (some "HS384|k|h384.c") ∧
    (NewWithClaims .HS256 (GenerateJWT.claims sampleReads 7 "u@x.com" (15 * Minute))).Header.alg
      = some "HS256" ∧
    "HS384" ≠ "HS256" ∧
    ValidateJWT.keyFunc "k" (ParseWithClaims (samplePrimitives "h.c" sampleTable)
      (1060 * Second) "h384.c.HS384|k|h384.c" (ValidateJWT.keyFunc "k")).1 = .ok "k" ∧
    ValidateJWT (samplePrimitives "h.c" sampleTable) (1060 * Second)
      "h384.c.HS384|k|h384.c" "k"
      = .ok (GenerateJWT.claims sampleReads 7 "u@x.com" (15 * Minute)) := by
  refine ⟨rfl, rfl, by decide, rfl, rfl⟩

/-- C10 (amended): `ValidateJWT` rejects every token whose header names an
algorithm other than the three HMAC variants HS256, HS384 and HS512: the key
function refuses every method of such a name and validation fails.  For the
HMAC variants, HS384 and HS512 included, the key function supplies the key, and
a token of such a variant that is signed with the secret and within its time
bounds validates to its claims. -/
theorem ValidateJWT_rejects_non_HMAC (P : Primitives) (now : Time) (secret : String) :
    (∀ (tokenString : String) (header : Header) (cl : Claims) (text : String)
        (sig : Option String) (alg : String),
      P.decodeToken tokenString = Decoded.parts header cl text sig →
      header.alg = some alg →
      alg ≠ "HS256" ∧ alg ≠ "HS384" ∧ alg ≠ "HS512" →
      (∃ e, ValidateJWT P now tokenString secret = .error e) ∧
      (∀ (tok : Token) (m : SigningMethod), tok.Method = some m → m.Alg = alg →
        ∃ e, ValidateJWT.keyFunc secret tok = .error e)) ∧
    (∀ (tok : Token) (m : SigningMethod), tok.Method = some m → m.isHMAC = true →
      ValidateJWT.keyFunc secret tok = .ok secret) ∧
    (∀ (tokenString : String) (m : SigningMethod) (cl : Claims) (typ : Option String)
        (text : String),
      m = .HS256 ∨ m = .HS384 ∨ m = .HS512 →
      P.decodeToken tokenString
        = Decoded.parts ⟨some m.Alg, typ⟩ cl text (some (P.hmacSum m secret text)) →
      (∀ e, cl.ExpiresAt = some e → now < e) →
      (∀ n, cl.NotBefore = some n → n ≤ now) →
      ValidateJWT P now tokenString secret = .ok cl) := by
  refine ⟨?_, ?_, ?_⟩
  · intro tokenString header cl text sig alg hdec halg hnot
    have hnonhmac : ∀ m : SigningMethod, m.Alg = alg → m.isHMAC = false := by
      intro m hmalg
      cases hh : m.isHMAC with
      | false => rfl
      | true =>
        rcases isHMAC_Alg m hh with h | h | h
        · exact absurd (hmalg ▸ h) hnot.1
        · exact absurd (hmalg ▸ h) hnot.2.1
        · exact absurd (hmalg ▸ h) hnot.2.2
    constructor
    · obtain ⟨alg', typ⟩ := header
      simp only at halg
      subst halg
      cases hg : GetSigningMethod alg with
      | none =>
        exact ⟨_, ValidateJWT_unregistered_alg P now secret tokenString ⟨some alg, typ⟩ cl text
          sig alg hdec rfl hg⟩
      | some m =>
        have hm := hnonhmac m (GetSigningMethod_some alg m hg)
        cases sig with
        | none =>
          exact ⟨_, ValidateJWT_bad_signature_segment P now secret tokenString
            ⟨some alg, typ⟩ cl text alg m hdec rfl hg⟩
        | some sg =>
          exact ⟨_, by
            simp [ValidateJWT, ParseWithClaims, hdec, hg, ValidateJWT.keyFunc, hm,
              ValidateJWT.early, newError, GoError.Is, GoError.new]
            rfl⟩
    · intro tok m htok hmalg
      exact ⟨_, by simp [ValidateJWT.keyFunc, htok, hnonhmac m hmalg]; rfl⟩
  · intro tok m htok hm
    simp [ValidateJWT.keyFunc, htok, hm]
  · intro tokenString m cl typ text hm hdec hexp hnbf
    have hHMAC : m.isHMAC = true := by
      rcases hm with h | h | h <;> subst h <;> rfl
    exact ValidateJWT_signed_live P now secret tokenString m cl ⟨hHMAC, typ, text, hdec⟩
      hexp hnbf

/-- C10 (amended) at a token whose header names RS256, which is refused, and at
the HS384 token signed with the secret, which validates at 1060 s. -/
theorem ValidateJWT_rejects_non_HMAC_witness :
    (∃ e, ValidateJWT (samplePrimitives "h.c" sampleTable) (1060 * Second) "hrs.c.sig" "k"
      = .error e) ∧
    (∃ e, ValidateJWT.keyFunc "k" (NewWithClaims .RS256 (sampleClaims 7)) = .error e) ∧
    ValidateJWT (samplePrimitives "h.c" sampleTable) (1060 * Second)
      "h384.c.HS384|k|h384.c" "k"
      = .ok (GenerateJWT.claims sampleReads 7 "u@x.com" (15 * Minute)) :=
  have h := (ValidateJWT_rejects_non_HMAC (samplePrimitives "h.c" sampleTable)
    (1060 * Second) "k").1 "hrs.c.sig" ⟨some "RS256", some "JWT"⟩
    (GenerateJWT.claims sampleReads 7 "u@x.com" (15 * Minute)) "hrs.c" (some "sig") "RS256"
    (by rfl) (by rfl) (by decide)
  ⟨h.1, h.2 (NewWithClaims .RS256 (sampleClaims 7)) .RS256 (by rfl) (by rfl),
   (ValidateJWT_rejects_non_HMAC (samplePrimitives "h.c" sampleTable)
    (1060 * Second) "k").2.2 "h384.c.HS384|k|h384.c" .HS384
    (GenerateJWT.claims sampleReads 7 "u@x.com" (15 * Minute)) (some "JWT") "h384.c"
    (Or.inr (Or.inl rfl)) (by rfl)
    (by intro e he; cases he; decide) (by intro n hn; cases hn; decide)⟩

/-! ## gRPC `ValidateToken` -/

/-- C11 (as stated, refuted): the verifier rejects the empty token string, yet
the endpoint answers it with the RPC error `InvalidArgument`, not with a nil
error and `Valid=false`. -/
theorem grpc_ValidateToken_empty_token :
    (sampleImpl ⟨[], none⟩).ValidateToken (samplePrimitives "h.c" sampleTable)
        (1060 * Second) ""
      = .error (GoError.wrap "token validation failed" (GoError.new "malformed token")) ∧
    (UserServer.ValidateToken
        (userServiceImpl.withValidateToken (samplePrimitives "h.c" sampleTable) (1060 * Second)
          (unavailableService userServiceImpl))
        ⟨""⟩ (sampleImpl ⟨[], none⟩)).1
      = .error ⟨Codes.InvalidArgument, "Token is required"⟩ :=
  ⟨rfl, rfl⟩

/-- C11 (amended): for every non-empty token string that `ValidateJWT` rejects,
whatever the error, the endpoint returns a nil error and the response
`Valid=false`, `UserId` 0, empty `Email`, and leaves the service as it was; the
empty token string is answered with the RPC error `InvalidArgument` "Token is
required". -/
theorem grpc_ValidateToken_rejected (P : Primitives) (now : Time)
    (h : UserService userServiceImpl) (s : userServiceImpl) (req : ValidateTokenRequest)
    (e : GoError)
    (hne : req.Token ≠ "")
    (hrej : ValidateJWT P now req.Token s.cfg.JWTSecret = .error e) :
    UserServer.ValidateToken (userServiceImpl.withValidateToken P now h) req s
      = (.ok { Valid := false, UserId := 0, Email := "" }, s) ∧
    UserServer.ValidateToken (userServiceImpl.withValidateToken P now h) ⟨""⟩ s
      = (.error ⟨Codes.InvalidArgument, "Token is required"⟩, s) := by
  constructor
  · simp [UserServer.ValidateToken, hne, userServiceImpl.withValidateToken,
      userServiceImpl.ValidateToken, hrej]
  · simp [UserServer.ValidateToken]

/-- C11 (amended) at concrete tokens presented at 1060 s: an expired token and a
token with a forged signature both get `Valid=false` and a nil error. -/
theorem grpc_ValidateToken_rejected_witness :
    (UserServer.ValidateToken
        (userServiceImpl.withValidateToken (samplePrimitives "h.c" sampleTable) (1060 * Second)
          (unavailableService userServiceImpl))
        ⟨"h.old.HS256|k|h.old"⟩ (sampleImpl ⟨[], none⟩)).1
      = .ok { Valid := false, UserId := 0, Email := "" } ∧
    (UserServer.ValidateToken
        (userServiceImpl.withValidateToken (samplePrimitives "h.c" sampleTable) (1060 * Second)
          (unavailableService userServiceImpl))
        ⟨"h.c.forged"⟩ (sampleImpl ⟨[], none⟩)).1
      = .ok { Valid := false, UserId := 0, Email := "" } :=
  ⟨congrArg Prod.fst (grpc_ValidateToken_rejected (samplePrimitives "h.c" sampleTable)
      (1060 * Second) (unavailableService userServiceImpl) (sampleImpl ⟨[], none⟩)
      ⟨"h.old.HS256|k|h.old"⟩ (GoError.new "token has expired") (by decide) (by rfl)).1,
   congrArg Prod.fst (grpc_ValidateToken_rejected (samplePrimitives "h.c" sampleTable)
      (1060 * Second) (unavailableService userServiceImpl) (sampleImpl ⟨[], none⟩)
      ⟨"h.c.forged"⟩
      (GoError.wrap "couldn't handle this token"
        (newError "" .ErrTokenSignatureInvalid [GoError.new "signature is invalid"]))
      (by decide) (by rfl)).1⟩

/-! ## `AuthMiddleware` -/

/-- C12 (as stated, refuted): at 1060 s an expired token and an undecodable
token both fail validation, and the middleware answers both with 401, but the
bodies differ: each carries the text of its validation error under `details`. -/
theorem AuthMiddleware_bodies_differ :
    ValidateJWT (samplePrimitives "h.c" sampleTable) (1060 * Second)
      "h.old.HS256|k|h.old" "k" = .error (GoError.new "token has expired") ∧
    ValidateJWT (samplePrimitives "h.c" sampleTable) (1060 * Second)
      "garbage" "k" = .error (GoError.new "malformed token") ∧
    (AuthMiddleware (samplePrimitives "h.c" sampleTable) (1060 * Second) sampleConfig id
      (requestWith "Bearer h.old.HS256|k|h.old")).Written
      = [Payload.H [("error", "Invalid or expired token"), ("details", "token has expired")]] ∧
    (AuthMiddleware (samplePrimitives "h.c" sampleTable) (1060 * Second) sampleConfig id
      (requestWith "Bearer garbage")).Written
      = [Payload.H [("error", "Invalid or expired token"), ("details", "malformed token")]] ∧
    (AuthMiddleware (samplePrimitives "h.c" sampleTable) (1060 * Second) sampleConfig id
      (requestWith "Bearer h.old.HS256|k|h.old")).Written
      ≠ (AuthMiddleware (samplePrimitives "h.c" sampleTable) (1060 * Second) sampleConfig id
      (requestWith "Bearer garbage")).Written := by
  refine ⟨rfl, rfl, by decide, by decide, by decide⟩

/-- C12 (amended): for every request whose non-empty `Authorization` header
yields a token that fails validation with error `e`, the middleware aborts the
request with status 401 and the body `error: "Invalid or expired token"`,
`details: e.Error()`; the `error` text is the same for every failure, the
`details` text is that of the validation error. -/
theorem AuthMiddleware_rejects (P : Primitives) (now : Time) (cfg : Config)
    (next : Context → Context) (c : Context) (e : GoError)
    (hhdr : c.GetHeader AuthorizationHeaderKey ≠ "")
    (hrej : ValidateJWT P now (AuthMiddleware.tokenString (c.GetHeader AuthorizationHeaderKey))
      cfg.JWTSecret = .error e) :
    AuthMiddleware P now cfg next c
      = c.AbortWithStatusJSON StatusUnauthorized
          (Payload.H [("error", "Invalid or expired token"), ("details", e.msg)]) ∧
    (AuthMiddleware P now cfg next c).Aborted = true ∧
    (AuthMiddleware P now cfg next c).Written
      = c.Written ++ [Payload.H [("error", "Invalid or expired token"), ("details", e.msg)]] ∧
    (c.Written = [] → (AuthMiddleware P now cfg next c).Status = StatusUnauthorized) := by
  have hmw : AuthMiddleware P now cfg next c
      = c.AbortWithStatusJSON StatusUnauthorized
          (Payload.H [("error", "Invalid or expired token"), ("details", e.msg)]) := by
    simp [AuthMiddleware, hhdr, AuthMiddleware.validate, hrej, errorDetailsBody]
  refine ⟨hmw, ?_, ?_, ?_⟩
  · rw [hmw]
    by_cases hw : c.Written = [] <;>
      simp [Context.AbortWithStatusJSON, Context.JSON, Context.setStatus, hw]
  · rw [hmw]
    by_cases hw : c.Written = [] <;>
      simp [Context.AbortWithStatusJSON, Context.JSON, Context.setStatus, hw]
  · intro hw
    rw [hmw]
    simp [Context.AbortWithStatusJSON, Context.JSON, Context.setStatus, hw]

/-- C12 (amended) at the request `Authorization: Bearer garbage`. -/
theorem AuthMiddleware_rejects_witness :
    (AuthMiddleware (samplePrimitives "h.c" sampleTable) (1060 * Second) sampleConfig id
      (requestWith "Bearer garbage")).Status = StatusUnauthorized :=
  (AuthMiddleware_rejects (samplePrimitives "h.c" sampleTable) (1060 * Second) sampleConfig id
    (requestWith "Bearer garbage") (GoError.new "malformed token")
    (by decide) (by rfl)).2.2.2 (by decide)

/-! ## Revocation record -/

theorem digitChar_value : ∀ k, k < 10 → (Nat.digitChar k).toNat - '0'.toNat = k := by
  decide

theorem toDigitsCore_append (fuel : Nat) : ∀ (n : Nat) (ds : List Char),
    Nat.toDigitsCore 10 fuel n ds = Nat.toDigitsCore 10 fuel n [] ++ ds := by
  induction fuel with
  | zero => intro n ds; simp [Nat.toDigitsCore]
  | succ fuel ih =>
    intro n ds
    simp only [Nat.toDigitsCore]
    by_cases h0 : n / 10 = 0
    · simp [h0]
    · simp only [h0, if_false]
      rw [ih (n / 10) (Nat.digitChar (n % 10) :: ds), ih (n / 10) [Nat.digitChar (n % 10)]]
      simp

theorem toDigitsCore_value (fuel : Nat) : ∀ n : Nat, n < fuel →
    (Nat.toDigitsCore 10 fuel n []).foldl
      (fun acc ch => 10 * acc + (ch.toNat - '0'.toNat)) 0 = n := by
  induction fuel with
  | zero => intro n hn; omega
  | succ fuel ih =>
    intro n hn
    simp only [Nat.toDigitsCore]
    by_cases h0 : n / 10 = 0
    · simp only [h0, if_true, List.foldl_cons, List.foldl_nil]
      rw [digitChar_value (n % 10) (Nat.mod_lt n (by decide))]
      omega
    · simp only [h0, if_false]
      rw [toDigitsCore_append fuel (n / 10) [Nat.digitChar (n % 10)], List.foldl_append,
        ih (n / 10) (by omega)]
      simp only [List.foldl_cons, List.foldl_nil]
      rw [digitChar_value (n % 10) (Nat.mod_lt n (by decide))]
      omega

theorem jwtKey_injective (a b : Nat) (h : jwtKey a = jwtKey b) : a = b := by
  have hdata : (Nat.repr a).data = (Nat.repr b).data := by
    have h' := congrArg String.data h
    simpa [jwtKey, toString] using h'
  have hdigits : Nat.toDigits 10 a = Nat.toDigits 10 b := by
    simpa [Nat.repr, List.asString] using hdata
  have ha := toDigitsCore_value (a + 1) a (by omega)
  have hb := toDigitsCore_value (b + 1) b (by omega)
  unfold Nat.toDigits at hdigits
  rw [hdigits] at ha
  omega

theorem lookup_set_same (entries : List (String × String × Option Duration))
    (key : String) (v : String × Option Duration) :
    ((key, v) :: entries.filter (fun e => e.1 != key)).lookup key = some v := by
  simp [List.lookup]

theorem lookup_set_other (entries : List (String × String × Option Duration))
    (key k : String) (v : String × Option Duration) (hk : k ≠ key) :
    ((key, v) :: entries.filter (fun e => e.1 != key)).lookup k = entries.lookup k := by
  have hbeq : (k == key) = false := by simpa using hk
  simp only [List.lookup, hbeq]
  induction entries with
  | nil => rfl
  | cons e rest ih =>
    obtain ⟨k', v'⟩ := e
    by_cases hk' : k' = key
    · subst hk'
      simp [List.filter, List.lookup, hbeq, ih]
    · have : (k' != key) = true := by simpa using hk'
      simp only [List.filter, this, List.lookup, ih]

theorem lifetime_whole_milliseconds (r : Redis) (key : String) (d : Duration)
    (hpos : 0 < d) (hms : d % Millisecond = 0) : r.lifetime key d = some d := by
  unfold Redis.lifetime Second Millisecond
  unfold Millisecond at hms
  have hmilli : ∀ x : Int, 0 < x → x % 1000000 = 0 →
      ¬ x < 1000000 ∧ x / 1000000 * 1000000 = x := by
    intro x h₁ h₂
    constructor <;> omega
  have hwhole : ∀ x : Int, ¬ (x < 1000000000 ∨ x % 1000000000 ≠ 0) →
      x / 1000000000 * 1000000000 = x := by
    intro x h₁
    omega
  obtain ⟨hge, hdiv⟩ := hmilli d hpos hms
  rw [if_pos hpos]
  by_cases hprecise : d < 1000000000 ∨ d % 1000000000 ≠ 0
  · rw [if_pos hprecise, if_neg hge, hdiv]
  · rw [if_neg hprecise, hwhole d hprecise]

/-- C13 (as stated, refuted): with the expiry configured as zero a login
succeeds and the token is recorded under `jwt:7`, but without any time-to-live:
the entry does not expire, which is not a time-to-live of zero. -/
theorem Login_zero_expiry_no_ttl :
    sampleImplZeroExpiry.rdb.fault = none ∧
    sampleImplZeroExpiry.cfg.JWTExpiry = 0 ∧
    (sampleImplZeroExpiry.Login (samplePrimitives "h.c" sampleTable) sampleReads
      "u@x.com" "secret1").1 = .ok "h.c.HS256|k|h.c" ∧
    (sampleImplZeroExpiry.Login (samplePrimitives "h.c" sampleTable) sampleReads
      "u@x.com" "secret1").2.rdb.Get "jwt:7" = some ("h.c.HS256|k|h.c", none) ∧
    (none : Option Duration) ≠ some sampleImplZeroExpiry.cfg.JWTExpiry := by
  refine ⟨rfl, rfl, rfl, by decide, by decide⟩

/-- C13 (amended): after a successful `Login` of the account `u` with the cache
reachable, the entry under `jwt:<u.ID>` holds exactly the returned token,
whatever was stored there before, every other key (in particular the key of
every other subject) holds what it held, and the entry's time-to-live is the
configured expiry when that is positive and a whole number of milliseconds; an
expiry of zero or below other than -1 ns stores the entry without a
time-to-live, and an expiry of -1 ns (`KeepTTL`) gives the entry the
time-to-live of the entry it replaces, none if there was none.  A failed `Login`
leaves the service, cache included, unchanged. -/
theorem Login_records_token (P : Primitives) (clk : NowReads) (s : userServiceImpl)
    (email password : String) :
    (∀ tok s', s.rdb.fault = none → s.Login P clk email password = (.ok tok, s') →
      ∃ u, s.db.FirstUser (fun v => v.Email == email) = .ok u ∧
        s'.rdb.Get (jwtKey u.ID)
          = some (tok, s.rdb.lifetime (jwtKey u.ID) s.cfg.JWTExpiry) ∧
        (0 < s.cfg.JWTExpiry → s.cfg.JWTExpiry % Millisecond = 0 →
          s'.rdb.Get (jwtKey u.ID) = some (tok, some s.cfg.JWTExpiry)) ∧
        (s.cfg.JWTExpiry ≤ 0 → s.cfg.JWTExpiry ≠ -1 →
          s'.rdb.Get (jwtKey u.ID) = some (tok, none)) ∧
        (s.cfg.JWTExpiry = -1 →
          s'.rdb.Get (jwtKey u.ID)
            = some (tok, (s.rdb.Get (jwtKey u.ID)).bind (fun old => old.2))) ∧
        (∀ k, k ≠ jwtKey u.ID → s'.rdb.Get k = s.rdb.Get k) ∧
        (∀ other, other ≠ u.ID → s'.rdb.Get (jwtKey other) = s.rdb.Get (jwtKey other))) ∧
    (∀ e s', s.Login P clk email password = (.error e, s') → s' = s) := by
  unfold userServiceImpl.Login
  cases hfirst : s.db.FirstUser (fun v => v.Email == email) with
  | error err =>
    constructor
    · intro tok s' _ hlogin
      by_cases hnf : err.Is Sentinel.ErrRecordNotFound = true <;> simp [hnf] at hlogin
    · intro e s' hlogin
      by_cases hnf : err.Is Sentinel.ErrRecordNotFound = true <;>
        simp [hnf] at hlogin <;> exact hlogin.2.symm
  | ok u =>
    cases hpw : CheckPasswordHash P password u.PasswordHash with
    | false =>
      constructor
      · intro tok s' _ hlogin
        simp [hpw] at hlogin
      · intro e s' hlogin
        simp [hpw] at hlogin
        exact hlogin.2.symm
    | true =>
      cases hgen : GenerateJWT P clk u.ID u.Email s.cfg.JWTSecret s.cfg.JWTExpiry with
      | error err =>
        constructor
        · intro tok s' _ hlogin
          simp [hpw, hgen] at hlogin
        · intro e s' hlogin
          simp [hpw, hgen] at hlogin
          exact hlogin.2.symm
      | ok tokenString =>
        constructor
        · intro tok s' hup hlogin
          simp only [hpw, hgen, Bool.not_true, Bool.false_eq_true, if_false, Redis.Set, hup,
            Prod.mk.injEq, Except.ok.injEq] at hlogin
          obtain ⟨htok, hs'⟩ := hlogin
          subst htok
          subst hs'
          have hsame := lookup_set_same s.rdb.entries (jwtKey u.ID)
            (tokenString, s.rdb.lifetime (jwtKey u.ID) s.cfg.JWTExpiry)
          have hother : ∀ k, k ≠ jwtKey u.ID →
              ((jwtKey u.ID, tokenString, s.rdb.lifetime (jwtKey u.ID) s.cfg.JWTExpiry) ::
                s.rdb.entries.filter (fun e => e.1 != jwtKey u.ID)).lookup k
                = s.rdb.entries.lookup k :=
            fun k hk => lookup_set_other s.rdb.entries (jwtKey u.ID) k _ hk
          refine ⟨u, rfl, hsame, ?_, ?_, ?_, hother, ?_⟩
          · intro hpos hms
            simp only [Redis.Get]
            rw [hsame, lifetime_whole_milliseconds s.rdb _ _ hpos hms]
          · intro hle hkeep
            simp only [Redis.Get]
            rw [hsame]
            have hnot : ¬ 0 < s.cfg.JWTExpiry := not_lt.mpr hle
            simp [Redis.lifetime, hnot, KeepTTL, hkeep]
          · intro hkeep
            simp only [Redis.Get]
            rw [hsame, hkeep]
            simp [Redis.lifetime, KeepTTL]
          · intro other hne
            exact hother (jwtKey other) (fun hk => hne (jwtKey_injective other u.ID hk))
        · intro e s' hlogin
          simp [hpw, hgen] at hlogin

/-- C13 (amended) at a concrete login with fifteen minutes of expiry into a
cache that holds an old token of user 7 and a token of user 8: the entry of
user 7 is replaced, that of user 8 is kept. -/
theorem Login_records_token_witness :
    ((sampleImpl ⟨[("jwt:8", "t8", some (15 * Minute)), ("jwt:7", "old", some (15 * Minute))],
        none⟩).Login (samplePrimitives "h.c" sampleTable) sampleReads
      "u@x.com" "secret1").2.rdb.entries
      = [("jwt:7", "h.c.HS256|k|h.c", some (15 * Minute)), ("jwt:8", "t8", some (15 * Minute))] ∧
    ∃ u, (sampleImpl ⟨[("jwt:8", "t8", some (15 * Minute)),
          ("jwt:7", "old", some (15 * Minute))], none⟩).db.FirstUser
        (fun v => v.Email == "u@x.com") = .ok u ∧
      ((sampleImpl ⟨[("jwt:8", "t8", some (15 * Minute)), ("jwt:7", "old", some (15 * Minute))],
        none⟩).Login (samplePrimitives "h.c" sampleTable) sampleReads
      "u@x.com" "secret1").2.rdb.Get (jwtKey u.ID)
        = some ("h.c.HS256|k|h.c", some sampleConfig.JWTExpiry) :=
  ⟨by decide,
   match (Login_records_token (samplePrimitives "h.c" sampleTable) sampleReads
      (sampleImpl ⟨[("jwt:8", "t8", some (15 * Minute)), ("jwt:7", "old", some (15 * Minute))],
        none⟩) "u@x.com" "secret1").1 "h.c.HS256|k|h.c" _ (by rfl) (by rfl) with
   | ⟨u, hu, _, httl, _⟩ => ⟨u, hu, httl (by decide) (by decide)⟩⟩

/-! ## Credential check -/

/-- C14 (as stated, refuted): for the password `secret2` the comparison fails on
the hash `not-a-hash` because it is malformed and on `bcrypt:secret1` because it
does not match, yet `CheckPasswordHash` returns the same value and `Login` the
same result for both accounts. -/
theorem malformed_hash_conflated :
    (samplePrimitives "h.c" []).compareHashAndPassword "not-a-hash" "secret2"
      = some (BcryptError.malformedHash "hashedSecret too short to be a bcrypted password") ∧
    (samplePrimitives "h.c" []).compareHashAndPassword "bcrypt:secret1" "secret2"
      = some BcryptError.mismatch ∧
    CheckPasswordHash (samplePrimitives "h.c" []) "secret2" "not-a-hash"
      = CheckPasswordHash (samplePrimitives "h.c" []) "secret2" "bcrypt:secret1" ∧
    sampleImplBadHash.Login (samplePrimitives "h.c" []) sampleReads "v@x.com" "secret2"
      = sampleImplBadHash.Login (samplePrimitives "h.c" []) sampleReads "u@x.com" "secret2" := by
  refine ⟨by decide, by decide, by decide, rfl⟩

/-- C14 (amended): a malformed stored hash is reported exactly as a wrong
password: when the comparison fails on the hash of one account because it is
malformed and on the hash of another because it does not match,
`CheckPasswordHash` returns false for both and `Login` returns "invalid email
or password" for both, leaving the service unchanged. -/
theorem malformed_hash_reported_as_mismatch (P : Primitives) (clk : NowReads)
    (s : userServiceImpl) (email₁ email₂ password : String) (u₁ u₂ : User) (detail : String)
    (h₁ : s.db.FirstUser (fun v => v.Email == email₁) = .ok u₁)
    (hbad : P.compareHashAndPassword u₁.PasswordHash password
      = some (BcryptError.malformedHash detail))
    (h₂ : s.db.FirstUser (fun v => v.Email == email₂) = .ok u₂)
    (hmis : P.compareHashAndPassword u₂.PasswordHash password = some BcryptError.mismatch) :
    CheckPasswordHash P password u₁.PasswordHash = false ∧
    CheckPasswordHash P password u₂.PasswordHash = false ∧
    s.Login P clk email₁ password = (.error (GoError.new "invalid email or password"), s) ∧
    s.Login P clk email₂ password = (.error (GoError.new "invalid email or password"), s) := by
  have c₁ : CheckPasswordHash P password u₁.PasswordHash = false := by
    simp [CheckPasswordHash, hbad]
  have c₂ : CheckPasswordHash P password u₂.PasswordHash = false := by
    simp [CheckPasswordHash, hmis]
  exact ⟨c₁, c₂, Login_wrong_password P clk s email₁ password u₁ h₁ c₁,
    Login_wrong_password P clk s email₂ password u₂ h₂ c₂⟩

/-- C14 (amended) at the accounts `v@x.com` (malformed hash) and `u@x.com`
(other password). -/
theorem malformed_hash_reported_as_mismatch_witness :
    sampleImplBadHash.Login (samplePrimitives "h.c" []) sampleReads "v@x.com" "secret2"
      = (.error (GoError.new "invalid email or password"), sampleImplBadHash) ∧
    sampleImplBadHash.Login (samplePrimitives "h.c" []) sampleReads "u@x.com" "secret2"
      = (.error (GoError.new "invalid email or password"), sampleImplBadHash) :=
  (malformed_hash_reported_as_mismatch (samplePrimitives "h.c" []) sampleReads
    sampleImplBadHash "v@x.com" "u@x.com" "secret2" (sampleUser 8 "v@x.com" "not-a-hash")
    (sampleUser 7 "u@x.com" "bcrypt:secret1")
    "hashedSecret too short to be a bcrypted password"
    (by rfl) (by decide) (by rfl) (by decide)).2.2

/-! ## Issued claims -/

theorem NewNumericDate_gt (t : Time) : t < NewNumericDate t + Second := by
  have h : ∀ x : Int, x < x / 1000000000 * 1000000000 + 1000000000 := by
    intro x
    omega
  exact h t

theorem NewNumericDate_whole (t : Time) (h : t % Second = 0) : NewNumericDate t = t := by
  have hw : ∀ x : Int, x % 1000000000 = 0 → x / 1000000000 * 1000000000 = x := by
    intro x hx
    omega
  exact hw t h

/-- C15 (as stated, refuted): with the clock read at 1000 s + 2 ns the issued-at
of the signed claims is 1000 s, not the current time, and with readings on both
sides of a second boundary issued-at (1000 s) and not-before (1001 s) differ
from each other. -/
theorem GenerateJWT_dates_truncated :
    sampleReads.forIssuedAt = 1000 * Second + 2 ∧
    (GenerateJWT.claims sampleReads 7 "u@x.com" (15 * Minute)).IssuedAt
      = some (1000 * Second) ∧
    (GenerateJWT.claims sampleReads 7 "u@x.com" (15 * Minute)).IssuedAt
      ≠ some sampleReads.forIssuedAt ∧
    (GenerateJWT.claims straddlingReads 7 "u@x.com" (15 * Minute)).IssuedAt
      = some (1000 * Second) ∧
    (GenerateJWT.claims straddlingReads 7 "u@x.com" (15 * Minute)).NotBefore
      = some (1001 * Second) := by
  decide

/-- C15 (amended): the claims `GenerateJWT` signs carry its `userID` and `email`,
the issuer `user-service`, and as issued-at, not-before and expiry the clock
reading taken for each (plus the ttl for the expiry) truncated to the whole
second, so each date lies within the second below its untruncated value; the
token is the signing string of the HS256 header and these claims followed by its
HMAC under the secret.  When the three readings are one instant on a whole
second and the ttl is a whole number of seconds, issued-at and not-before are
that instant and the expiry is that instant plus the ttl. -/
theorem GenerateJWT_signed_claims (P : Primitives) (clk : NowReads) (userID : Nat)
    (email secret : String) (expiry : Duration) :
    (GenerateJWT.claims clk userID email expiry).UserID = userID ∧
    (GenerateJWT.claims clk userID email expiry).Email = email ∧
    (GenerateJWT.claims clk userID email expiry).Issuer = "user-service" ∧
    (GenerateJWT.claims clk userID email expiry).IssuedAt
      = some (NewNumericDate clk.forIssuedAt) ∧
    (GenerateJWT.claims clk userID email expiry).NotBefore
      = some (NewNumericDate clk.forNotBefore) ∧
    (GenerateJWT.claims clk userID email expiry).ExpiresAt
      = some (NewNumericDate (clk.forExpiresAt + expiry)) ∧
    (∀ t : Time, NewNumericDate t ≤ t ∧ t < NewNumericDate t + Second) ∧
    (∀ sstr, P.signingString hs256Header (GenerateJWT.claims clk userID email expiry)
        = .ok sstr →
      GenerateJWT P clk userID email secret expiry
        = .ok (sstr ++ "." ++ P.encodeSegment (P.hmacSum .HS256 secret sstr))) ∧
    (∀ t : Time, clk = ⟨t, t, t⟩ → t % Second = 0 → expiry % Second = 0 →
      (GenerateJWT.claims clk userID email expiry).IssuedAt = some t ∧
      (GenerateJWT.claims clk userID email expiry).NotBefore = some t ∧
      (GenerateJWT.claims clk userID email expiry).ExpiresAt = some (t + expiry)) := by
  refine ⟨rfl, rfl, rfl, rfl, rfl, rfl, fun t => ⟨NewNumericDate_le t, NewNumericDate_gt t⟩,
    ?_, ?_⟩
  · intro sstr hsstr
    have hsstr' := hsstr
    unfold hs256Header at hsstr'
    simp [GenerateJWT, Token.SignedString, NewWithClaims, SigningMethod.Alg, hsstr',
      SigningMethod.Sign, SigningMethod.isHMAC]
  · intro t hclk ht hexp
    subst hclk
    have hsum : (t + expiry) % Second = 0 := by
      have hw : ∀ x y : Int, x % 1000000000 = 0 → y % 1000000000 = 0 →
          (x + y) % 1000000000 = 0 := by
        intro x y hx hy
        omega
      exact hw t expiry ht hexp
    simp only [GenerateJWT.claims, NewNumericDate_whole t ht,
      NewNumericDate_whole (t + expiry) hsum, and_self]

/-- C15 (amended) at a login at 1000 s sharp with fifteen minutes of expiry. -/
theorem GenerateJWT_signed_claims_witness :
    GenerateJWT (samplePrimitives "h.c" []) ⟨1000 * Second, 1000 * Second, 1000 * Second⟩
      7 "u@x.com" "k" (15 * Minute) = .ok "h.c.HS256|k|h.c" ∧
    (GenerateJWT.claims ⟨1000 * Second, 1000 * Second, 1000 * Second⟩ 7 "u@x.com"
      (15 * Minute)).ExpiresAt = some (1000 * Second + 15 * Minute) :=
  have h := GenerateJWT_signed_claims (samplePrimitives "h.c" [])
    ⟨1000 * Second, 1000 * Second, 1000 * Second⟩ 7 "u@x.com" "k" (15 * Minute)
  ⟨h.2.2.2.2.2.2.2.1 "h.c" (by rfl),
   (h.2.2.2.2.2.2.2.2 (1000 * Second) (by rfl) (by decide) (by decide)).2.2⟩

theorem wrapInt64_minutes (m : Int) (hpos : 0 < m) (hmax : m ≤ 153722867) :
    wrapInt64 (m * Minute) = m * Minute ∧ Minute ≤ m * Minute := by
  have h : ∀ x : Int, 0 < x → x ≤ 153722867 →
      (x * 60000000000 + 9223372036854775808) % 18446744073709551616 - 9223372036854775808
        = x * 60000000000 ∧ 60000000000 ≤ x * 60000000000 := by
    intro x h₁ h₂
    constructor <;> omega
  have hm := h m hpos hmax
  have hMinute : Minute = 60000000000 := by decide
  constructor
  · have h63 : (2 : Int) ^ 63 = 9223372036854775808 := by norm_num
    have h64 : (2 : Int) ^ 64 = 18446744073709551616 := by norm_num
    simp only [wrapInt64, hMinute, h63, h64]
    exact hm.1
  · rw [hMinute]
    exact hm.2

theorem LoadConfig_JWTExpiry (env : Env) (cfg : Config) (h : LoadConfig env = some cfg) :
    cfg.JWTExpiry =
      match Atoi (getEnv env "JWT_EXPIRY_MINUTES" "15") with
      | none => 15 * Minute
      | some jwtExpiryMinutes => wrapInt64 (jwtExpiryMinutes * Minute) := by
  unfold LoadConfig at h
  cases hdb : getEnvOrPanic env "DATABASE_URL" with
  | none => simp [hdb] at h
  | some databaseURL =>
    cases hredis : getEnvOrPanic env "REDIS_ADDR" with
    | none => simp [hdb, hredis] at h
    | some redisAddr =>
      cases hsecret : getEnvOrPanic env "JWT_SECRET" with
      | none => simp [hdb, hredis, hsecret] at h
      | some jwtSecret =>
        cases hmin : Atoi (getEnv env "JWT_EXPIRY_MINUTES" "15") with
        | none =>
          simp only [hdb, hredis, hsecret, hmin, Option.some.injEq] at h
          rw [← h]
          cases Atoi (getEnv env "REDIS_DB" (Itoa 0)) <;> rfl
        | some m =>
          simp only [hdb, hredis, hsecret, hmin, Option.some.injEq] at h
          rw [← h]

theorem truncated_lt (a b : Time) (h : b + Second ≤ a) :
    NewNumericDate b < NewNumericDate a := by
  have hw : ∀ x y : Int, y + 1000000000 ≤ x →
      y / 1000000000 * 1000000000 < x / 1000000000 * 1000000000 := by
    intro x y hxy
    omega
  exact hw a b h

theorem truncated_pos (b : Time) (h : Second ≤ b) : 0 < NewNumericDate b := by
  have hw : ∀ y : Int, 1000000000 ≤ y → 0 < y / 1000000000 * 1000000000 := by
    intro y hy
    omega
  exact hw b h

/-- C16 (as stated, refuted): `LoadConfig` accepts `JWT_EXPIRY_MINUTES=0` and
`JWT_EXPIRY_MINUTES=-5`, producing an expiry of zero and of minus five minutes;
the claims issued at 1000 s then expire at 1000 s and at 700 s, not later than
their issued-at of 1000 s. -/
theorem LoadConfig_nonpositive_expiry :
    (LoadConfig (sampleEnv "0")).map (fun cfg => cfg.JWTExpiry) = some 0 ∧
    (GenerateJWT.claims sampleReads 7 "u@x.com" 0).ExpiresAt = some (1000 * Second) ∧
    (GenerateJWT.claims sampleReads 7 "u@x.com" 0).IssuedAt = some (1000 * Second) ∧
    (LoadConfig (sampleEnv "-5")).map (fun cfg => cfg.JWTExpiry) = some (-5 * Minute) ∧
    (GenerateJWT.claims sampleReads 7 "u@x.com" (-5 * Minute)).ExpiresAt
      = some (700 * Second) ∧
    (GenerateJWT.claims sampleReads 7 "u@x.com" (-5 * Minute)).IssuedAt
      = some (1000 * Second) ∧
    ¬ ((1000 * Second : Time) < 1000 * Second) ∧ ¬ ((1000 * Second : Time) < 700 * Second) := by
  decide

theorem wrapInt64_minutes_nonpos (m : Int) (hmin : -153722867 ≤ m) (hle : m ≤ 0) :
    wrapInt64 (m * Minute) = m * Minute ∧ m * Minute ≤ 0 := by
  have h : ∀ x : Int, -153722867 ≤ x → x ≤ 0 →
      (x * 60000000000 + 9223372036854775808) % 18446744073709551616 - 9223372036854775808
        = x * 60000000000 ∧ x * 60000000000 ≤ 0 := by
    intro x h₁ h₂
    constructor <;> omega
  have hm := h m hmin hle
  have hMinute : Minute = 60000000000 := by decide
  constructor
  · have h63 : (2 : Int) ^ 63 = 9223372036854775808 := by norm_num
    have h64 : (2 : Int) ^ 64 = 18446744073709551616 := by norm_num
    simp only [wrapInt64, hMinute, h63, h64]
    exact hm.1
  · rw [hMinute]
    exact hm.2

theorem truncated_le (a b : Time) (h : a ≤ b) : NewNumericDate a ≤ NewNumericDate b := by
  have hw : ∀ x y : Int, x ≤ y → x / 1000000000 * 1000000000 ≤ y / 1000000000 * 1000000000 := by
    intro x y hxy
    omega
  exact hw a b h

theorem LoadConfig_accepts (env : Env) (databaseURL redisAddr jwtSecret : String)
    (hdb : getEnvOrPanic env "DATABASE_URL" = some databaseURL)
    (hredis : getEnvOrPanic env "REDIS_ADDR" = some redisAddr)
    (hsecret : getEnvOrPanic env "JWT_SECRET" = some jwtSecret) :
    ∃ cfg, LoadConfig env = some cfg := by
  unfold LoadConfig
  simp only [hdb, hredis, hsecret]
  cases Atoi (getEnv env "JWT_EXPIRY_MINUTES" "15") with
  | none => exact ⟨_, rfl⟩
  | some m => exact ⟨_, rfl⟩

/-- C16 (amended): the claims `GenerateJWT` issues satisfy expiry > issued-at > 0
whenever the clock is at least one second past the epoch and the ttl exceeds, by
at least one second, the time between the reading for the expiry and the reading
for issued-at.  That is the case for every `JWTExpiry` that `LoadConfig` produces
from a `JWT_EXPIRY_MINUTES` that is unset, not a number, or a number from 1 to
153722867 (the largest that fits 64-bit nanoseconds), such an expiry being at
least one minute, when the two readings are at most 59 seconds apart.
`LoadConfig` returns a configuration whenever the three required variables are
set, whatever `JWT_EXPIRY_MINUTES` is; from a number from -153722867 to 0 it
produces that many minutes, a non-positive `JWTExpiry`; and for every
non-positive ttl the expiry is not later than issued-at whenever the reading for
the expiry is not later than the reading for issued-at. -/
theorem issued_claims_expire_after_issue (clk : NowReads) (userID : Nat) (email : String) :
    (∀ ttl : Duration, Second ≤ clk.forIssuedAt →
      clk.forIssuedAt + Second ≤ clk.forExpiresAt + ttl →
      ∃ exp iat, (GenerateJWT.claims clk userID email ttl).ExpiresAt = some exp ∧
        (GenerateJWT.claims clk userID email ttl).IssuedAt = some iat ∧
        0 < iat ∧ iat < exp) ∧
    (∀ (env : Env) (cfg : Config), LoadConfig env = some cfg →
      (∀ m, Atoi (getEnv env "JWT_EXPIRY_MINUTES" "15") = some m → 0 < m ∧ m ≤ 153722867) →
      Second ≤ clk.forIssuedAt →
      clk.forIssuedAt ≤ clk.forExpiresAt + 59 * Second →
      Minute ≤ cfg.JWTExpiry ∧
      ∃ exp iat, (GenerateJWT.claims clk userID email cfg.JWTExpiry).ExpiresAt = some exp ∧
        (GenerateJWT.claims clk userID email cfg.JWTExpiry).IssuedAt = some iat ∧
        0 < iat ∧ iat < exp) ∧
    (∀ (env : Env) (databaseURL redisAddr jwtSecret : String),
      getEnvOrPanic env "DATABASE_URL" = some databaseURL →
      getEnvOrPanic env "REDIS_ADDR" = some redisAddr →
      getEnvOrPanic env "JWT_SECRET" = some jwtSecret →
      ∃ cfg, LoadConfig env = some cfg) ∧
    (∀ (env : Env) (cfg : Config) (m : Int), LoadConfig env = some cfg →
      Atoi (getEnv env "JWT_EXPIRY_MINUTES" "15") = some m →
      -153722867 ≤ m → m ≤ 0 →
      cfg.JWTExpiry = m * Minute ∧ cfg.JWTExpiry ≤ 0) ∧
    (∀ ttl : Duration, ttl ≤ 0 → clk.forExpiresAt ≤ clk.forIssuedAt →
      ∃ exp iat, (GenerateJWT.claims clk userID email ttl).ExpiresAt = some exp ∧
        (GenerateJWT.claims clk userID email ttl).IssuedAt = some iat ∧
        exp ≤ iat) := by
  have hgeneral : ∀ ttl : Duration, Second ≤ clk.forIssuedAt →
      clk.forIssuedAt + Second ≤ clk.forExpiresAt + ttl →
      ∃ exp iat, (GenerateJWT.claims clk userID email ttl).ExpiresAt = some exp ∧
        (GenerateJWT.claims clk userID email ttl).IssuedAt = some iat ∧
        0 < iat ∧ iat < exp := by
    intro ttl hclock httl
    exact ⟨_, _, rfl, rfl, truncated_pos _ hclock, truncated_lt _ _ httl⟩
  refine ⟨hgeneral, ?_, LoadConfig_accepts, ?_, ?_⟩
  · intro env cfg hload hmin hclock hreads
    have hexpiry := LoadConfig_JWTExpiry env cfg hload
    have hminute : Minute ≤ cfg.JWTExpiry := by
      cases hparse : Atoi (getEnv env "JWT_EXPIRY_MINUTES" "15") with
      | none =>
        rw [hparse] at hexpiry
        rw [hexpiry]
        decide
      | some m =>
        rw [hparse] at hexpiry
        obtain ⟨hpos, hmax⟩ := hmin m hparse
        obtain ⟨hwrap, hge⟩ := wrapInt64_minutes m hpos hmax
        simp only at hexpiry
        rw [hexpiry, hwrap]
        exact hge
    refine ⟨hminute, hgeneral cfg.JWTExpiry hclock ?_⟩
    have hw : ∀ a b c : Int, a ≤ b + 59 * 1000000000 → 60 * 1000000000 ≤ c →
        a + 1000000000 ≤ b + c := by
      intro a b c h₁ h₂
      omega
    exact hw _ _ _ hreads hminute
  · intro env cfg m hload hparse hmin hle
    have hexpiry := LoadConfig_JWTExpiry env cfg hload
    rw [hparse] at hexpiry
    simp only at hexpiry
    obtain ⟨hwrap, hnonpos⟩ := wrapInt64_minutes_nonpos m hmin hle
    rw [hexpiry, hwrap]
    exact ⟨rfl, hnonpos⟩
  · intro ttl httl hreads
    refine ⟨_, _, rfl, rfl, truncated_le _ _ ?_⟩
    have hw : ∀ a b c : Int, c ≤ 0 → a ≤ b → a + c ≤ b := by
      intro a b c h₁ h₂
      omega
    exact hw _ _ _ httl hreads

/-- C16 (amended) at the default configuration (`JWT_EXPIRY_MINUTES` unset is
the same as `15`) and at `JWT_EXPIRY_MINUTES=-5`, with a login at 1000 s. -/
theorem issued_claims_expire_after_issue_witness :
    (∃ exp iat,
      (GenerateJWT.claims sampleReads 7 "u@x.com" loadedConfig.JWTExpiry).ExpiresAt = some exp ∧
      (GenerateJWT.claims sampleReads 7 "u@x.com" loadedConfig.JWTExpiry).IssuedAt = some iat ∧
      0 < iat ∧ iat < exp) ∧
    (∃ cfg, LoadConfig (sampleEnv "-5") = some cfg) ∧
    ∃ exp iat,
      (GenerateJWT.claims sampleReads 7 "u@x.com" (-5 * Minute)).ExpiresAt = some exp ∧
      (GenerateJWT.claims sampleReads 7 "u@x.com" (-5 * Minute)).IssuedAt = some iat ∧
      exp ≤ iat :=
  ⟨((issued_claims_expire_after_issue sampleReads 7 "u@x.com").2.1
      (sampleEnv "15") loadedConfig (by decide)
      (fun m hm => by
        have h15 : Atoi (getEnv (sampleEnv "15") "JWT_EXPIRY_MINUTES" "15") = some 15 := by
          decide
        rw [h15] at hm
        cases hm
        decide)
      (by decide) (by decide)).2,
   (issued_claims_expire_after_issue sampleReads 7 "u@x.com").2.2.1 (sampleEnv "-5")
      "dsn" "localhost:6379" "k" (by decide) (by decide) (by decide),
   (issued_claims_expire_after_issue sampleReads 7 "u@x.com").2.2.2.2 (-5 * Minute)
      (by decide) (by decide)⟩

/-! ## Bearer-token extraction -/

theorem ToLower_BearerSchema : ToLower BearerSchema = "bearer" := by decide

theorem cutAtSpace_append (before after : List Char) (h : ' ' ∉ before) :
    cutAtSpace (before ++ ' ' :: after) = some (before, after) := by
  induction before with
  | nil => simp [cutAtSpace]
  | cons ch rest ih =>
    have hch : ch ≠ ' ' := fun hc => h (by simp [hc])
    have hrest : ' ' ∉ rest := fun hr => h (by simp [hr])
    simp [cutAtSpace, hch, ih hrest]

theorem scheme_has_no_space (s : String) (hs : ToLower s = "bearer") : ' ' ∉ s.data := by
  intro hmem
  have hdata : s.data.map Char.toLower = "bearer".data := by
    have := congrArg String.data hs
    simpa [ToLower] using this
  have hlow : Char.toLower ' ' ∈ s.data.map Char.toLower := List.mem_map_of_mem _ hmem
  rw [hdata] at hlow
  revert hlow
  decide

/-- C17: for every case variant `s` of the scheme word (a string that lowers to
`bearer`) and every string `t`, spaces or not, the header `s`, one space, `t`
yields exactly `t` as the token handed to validation; every non-empty header
whose lowered text does not begin with `bearer` is handed to validation
unchanged. -/
theorem AuthMiddleware_token_extraction (P : Primitives) (now : Time) (cfg : Config)
    (next : Context → Context) (c : Context) :
    (∀ s t : String, ToLower s = "bearer" →
      c.GetHeader AuthorizationHeaderKey = s ++ " " ++ t →
      AuthMiddleware.tokenString (s ++ " " ++ t) = t ∧
      AuthMiddleware P now cfg next c = AuthMiddleware.validate P now cfg next c t) ∧
    (c.GetHeader AuthorizationHeaderKey ≠ "" →
      HasPrefix (ToLower (c.GetHeader AuthorizationHeaderKey)) "bearer" = false →
      AuthMiddleware.tokenString (c.GetHeader AuthorizationHeaderKey)
        = c.GetHeader AuthorizationHeaderKey ∧
      AuthMiddleware P now cfg next c
        = AuthMiddleware.validate P now cfg next c (c.GetHeader AuthorizationHeaderKey)) := by
  constructor
  · intro s t hs hhdr
    have hdata : s.data.map Char.toLower = "bearer".data := by
      have := congrArg String.data hs
      simpa [ToLower] using this
    have hpre : HasPrefix (ToLower (s ++ " " ++ t)) (ToLower BearerSchema) = true := by
      rw [ToLower_BearerSchema]
      simp only [HasPrefix, ToLower, String.data_append, List.map_append, hdata,
        List.append_assoc]
      rw [List.isPrefixOf_iff_prefix]
      exact List.prefix_append _ _
    have hsplit : SplitN2 (s ++ " " ++ t) = [s, t] := by
      have hcut : cutAtSpace (s ++ " " ++ t).data = some (s.data, t.data) := by
        have hd : (s ++ " " ++ t).data = s.data ++ ' ' :: t.data := by
          simp [String.data_append]
        rw [hd]
        exact cutAtSpace_append s.data t.data (scheme_has_no_space s hs)
      unfold SplitN2
      rw [hcut]
    have htok : AuthMiddleware.tokenString (s ++ " " ++ t) = t := by
      simp [AuthMiddleware.tokenString, hpre, hsplit]
    refine ⟨htok, ?_⟩
    have hne : s ++ " " ++ t ≠ "" := by
      intro hempty
      have := congrArg String.length hempty
      simp [String.length_append] at this
      exact absurd this.1.2 (by decide)
    simp [AuthMiddleware, hhdr, hne, htok]
  · intro hne hno
    have htok : AuthMiddleware.tokenString (c.GetHeader AuthorizationHeaderKey)
        = c.GetHeader AuthorizationHeaderKey := by
      simp [AuthMiddleware.tokenString, ToLower_BearerSchema, hno]
    refine ⟨htok, ?_⟩
    simp [AuthMiddleware, hne, htok]

/-- C17 at concrete headers: `BEARER a b c` yields `a b c`, `bearer x.y.z`
yields `x.y.z`, and `Token x.y.z` is passed on whole. -/
theorem AuthMiddleware_token_extraction_witness :
    AuthMiddleware.tokenString ("BEARER" ++ " " ++ "a b c") = "a b c" ∧
    AuthMiddleware.tokenString ("bearer" ++ " " ++ "x.y.z") = "x.y.z" ∧
    AuthMiddleware.tokenString ((requestWith "Token x.y.z").GetHeader AuthorizationHeaderKey)
      = "Token x.y.z" :=
  ⟨((AuthMiddleware_token_extraction (samplePrimitives "h.c" sampleTable) (1060 * Second)
      sampleConfig id (requestWith "BEARER a b c")).1 "BEARER" "a b c"
      (by decide) (by decide)).1,
   ((AuthMiddleware_token_extraction (samplePrimitives "h.c" sampleTable) (1060 * Second)
      sampleConfig id (requestWith "bearer x.y.z")).1 "bearer" "x.y.z"
      (by decide) (by decide)).1,
   ((AuthMiddleware_token_extraction (samplePrimitives "h.c" sampleTable) (1060 * Second)
      sampleConfig id (requestWith "Token x.y.z")).2 (by decide) (by decide)).1⟩

end UserMicroservice
